import Mathlib

/-!
Verification of the result-reconciliation and confidence-scoring pipeline of
the music-hive repository, shallowly embedded in Lean 4.

The embedding follows the Python source:
  * `src/process_text.py`  (text normalisation, artist/song extraction),
  * `src/utils/song_filter.py`  (class `SongFilter`),
  * `src/gui/download_tab.py`  (`_find_best_spotify_match`,
    `_parse_duration_to_seconds`).

Modelling conventions, stated once here:
  * Python `str` is modelled as `String` / `List Char`; `str.lower` is modelled
    for ASCII (an explicit table), as are the character classes of the regexes
    (`\s`, `\w`, `[a-zA-Z]`); titles and queries in this domain are ASCII.
  * Python `float` arithmetic on the heuristic scores is modelled exactly over
    `ℚ`; the scores involved are small decimal combinations, so threshold
    comparisons agree with the IEEE evaluation on all inputs of interest.
  * `fuzzywuzzy` is used with the `python-Levenshtein` backend (the repository
    installs `python-Levenshtein` in every setup script), whose
    `fuzz.ratio(s1, s2)` equals `int(round(100 * (len1+len2-dist)/(len1+len2)))`
    with `dist` the edit distance with substitution cost 2, i.e.
    `round(200*LCS/(len1+len2))` with Python's round-half-to-even;
    `fuzz.partial_ratio` is modelled with block-aligned windows.
  * Python regular expressions are compiled by hand into scanning functions on
    `List Char`, following the backtracking semantics of each concrete pattern
    used by the source (leftmost match, lazy/greedy groups, word boundaries).
    `$` is modelled as end-of-string and `.` as "any character": no input in
    this domain contains a newline.
  * Dictionaries with fixed keys (`{'title', 'channel', 'duration'}` and
    Spotify track dicts) are modelled as structures; a missing key defaulting
    to `''`/`0`/`[]` is the corresponding field value.  `None` for an optional
    track is `Option.none`.
  * Bounded loops are written with an explicit fuel argument that is always
    called with at least the length of the scanned list, so the scan runs to
    completion exactly as the Python loop (fuel only discharges termination).
-/

set_option maxRecDepth 100000

/-! ## Python character and string primitives -/

/-- ASCII model of Python's `str.isspace`/regex `\s`: space, tab, newline,
vertical tab, form feed, carriage return. -/
def pyIsSpace (c : Char) : Bool :=
  c = ' ' || c = '\t' || c = '\n' || c = '\x0b' || c = '\x0c' || c = '\r'

/-- ASCII model of the regex word class `\w`: letters, digits, underscore. -/
def pyIsWord (c : Char) : Bool :=
  c.isAlpha || c.isDigit || c = '_'

/-- ASCII lower-casing of one character (model of `str.lower`), as an
explicit table. -/
def pyLowerChar : Char → Char
  | 'A' => 'a'
  | 'B' => 'b'
  | 'C' => 'c'
  | 'D' => 'd'
  | 'E' => 'e'
  | 'F' => 'f'
  | 'G' => 'g'
  | 'H' => 'h'
  | 'I' => 'i'
  | 'J' => 'j'
  | 'K' => 'k'
  | 'L' => 'l'
  | 'M' => 'm'
  | 'N' => 'n'
  | 'O' => 'o'
  | 'P' => 'p'
  | 'Q' => 'q'
  | 'R' => 'r'
  | 'S' => 's'
  | 'T' => 't'
  | 'U' => 'u'
  | 'V' => 'v'
  | 'W' => 'w'
  | 'X' => 'x'
  | 'Y' => 'y'
  | 'Z' => 'z'
  | c => c

/-- Lower-case a character list. -/
def lowerL (s : List Char) : List Char := s.map pyLowerChar

/-- Lower-case a string (ASCII model of `str.lower`). -/
def strLower (s : String) : String := ⟨lowerL s.data⟩

/-- Python `str.strip()` on a character list: drop whitespace at both ends. -/
def pyStripL (s : List Char) : List Char :=
  ((s.dropWhile pyIsSpace).reverse.dropWhile pyIsSpace).reverse

/-- Python `str.strip()` on a string. -/
def pyStrip (s : String) : String := ⟨pyStripL s.data⟩

/-- Python `str.strip(chars)`: drop any of the given characters at both ends
(used by the source as `.strip(' -')`). -/
def pyStripChars (cs : List Char) (s : List Char) : List Char :=
  ((s.dropWhile (cs.contains ·)).reverse.dropWhile (cs.contains ·)).reverse

/-- Python `str.split(sep)` for a one-character separator: splits at every
occurrence and keeps empty parts, `''.split(sep) == ['']`. -/
def pySplitChar (sep : Char) : List Char → List (List Char)
  | [] => [[]]
  | c :: t =>
    if c = sep then [] :: pySplitChar sep t
    else
      match pySplitChar sep t with
      | [] => [[c]]
      | p :: ps => (c :: p) :: ps

/-- Python `str.split()` with no argument: split on whitespace runs, dropping
empty parts.  The accumulator holds the current word reversed. -/
def pySplitWsAux : List Char → List Char → List (List Char)
  | [], acc => if acc.isEmpty then [] else [acc.reverse]
  | c :: t, acc =>
    if pyIsSpace c then
      if acc.isEmpty then pySplitWsAux t [] else acc.reverse :: pySplitWsAux t []
    else pySplitWsAux t (c :: acc)

/-- Python `str.split()` with no argument. -/
def pySplitWs (s : List Char) : List (List Char) := pySplitWsAux s []

/-- Digits-with-underscores tail of a Python integer literal: after the first
digit, single underscores may separate digit groups (`int("1_0") == 10`). -/
def pyDigitsTail : List Char → Nat → Option Nat
  | [], acc => some acc
  | '_' :: d :: t, acc =>
    if d.isDigit then pyDigitsTail t (acc * 10 + (d.toNat - 48)) else none
  | '_' :: [], _ => none
  | d :: t, acc =>
    if d.isDigit then pyDigitsTail t (acc * 10 + (d.toNat - 48)) else none

/-- Unsigned decimal digits as Python `int` parses them (at least one digit,
single underscores allowed between digits). -/
def pyDigits : List Char → Option Nat
  | [] => none
  | d :: t => if d.isDigit then pyDigitsTail t (d.toNat - 48) else none

/-- Model of Python `int(s)`: strip whitespace, optional single sign, decimal
digits; `none` models a raised `ValueError`. -/
def pyInt (s : List Char) : Option Int :=
  match pyStripL s with
  | '-' :: t => (pyDigits t).map (fun n => -(Int.ofNat n))
  | '+' :: t => (pyDigits t).map Int.ofNat
  | t => (pyDigits t).map Int.ofNat

/-- Does `needle` occur as a contiguous substring of `hay`?  Model of Python's
`needle in hay`; the empty needle is contained in everything. -/
def containsSub (hay needle : List Char) : Bool :=
  needle.isPrefixOf hay ||
    match hay with
    | [] => false
    | _ :: t => containsSub t needle

/-- Does the word list `w` match at index `i` of `s`? -/
def matchesAt (s w : List Char) (i : Nat) : Bool := w.isPrefixOf (s.drop i)

/-- Case-insensitive `matchesAt` (the pattern `w` is given lower-case). -/
def matchesAtCI (s w : List Char) (i : Nat) : Bool :=
  w.isPrefixOf (lowerL (s.drop i))

/-- The character of `s` at index `i`, if any, is a `\w` character. -/
def isWordAt (s : List Char) (i : Nat) : Bool :=
  match s[i]? with
  | some c => pyIsWord c
  | none => false

/-- Regex `\b` holds on the left of index `i` (start of string or a non-word
character before). -/
def leftBoundary (s : List Char) (i : Nat) : Bool :=
  i == 0 || !isWordAt s (i - 1)

/-- The word `w` matches at `i` with `\b` on both sides. -/
def boundedAt (s w : List Char) (i : Nat) : Bool :=
  matchesAt s w i && leftBoundary s i && !isWordAt s (i + w.length)

/-- Does some index `i ≤ s.length` satisfy `p`? -/
def existsIdx (s : List Char) (p : Nat → Bool) : Bool :=
  (List.range (s.length + 1)).any p

/-- All characters of `s` in the half-open index range `[a, b)` are whitespace. -/
def allWsBetween (s : List Char) (a b : Nat) : Bool :=
  ((s.drop a).take (b - a)).all pyIsSpace

/-- Length of the whitespace run of `s` that ends just before index `i`. -/
def wsRunBefore (s : List Char) (i : Nat) : Nat :=
  ((s.take i).reverse.takeWhile pyIsSpace).length

/-- Length of the whitespace run of `s` that starts at index `i`. -/
def wsRunAfter (s : List Char) (i : Nat) : Nat :=
  ((s.drop i).takeWhile pyIsSpace).length

/-- Model of the search for `\bw1\s+w2\b`: word `w1` with boundaries, at least
one whitespace, then word `w2` with boundaries. -/
def wordGapWord (s w1 w2 : List Char) : Bool :=
  existsIdx s (fun i =>
    boundedAt s w1 i &&
      existsIdx s (fun j =>
        i + w1.length < j && boundedAt s w2 j && allWsBetween s (i + w1.length) j))

/-- Replace every run of whitespace by a single space: model of
`re.sub(r'\s+', ' ', s)`.  `prevWs` records whether the previous character was
part of a run already replaced. -/
def collapseWsAux : List Char → Bool → List Char
  | [], _ => []
  | c :: t, prevWs =>
    if pyIsSpace c then
      if prevWs then collapseWsAux t true else ' ' :: collapseWsAux t true
    else c :: collapseWsAux t false

/-- Model of `re.sub(r'\s+', ' ', s).strip()`. -/
def collapseWs (s : List Char) : List Char := pyStripL (collapseWsAux s false)

/-! ## The two duration parsers

`SongFilter._parse_duration` (src/utils/song_filter.py, lines 329-353) and
`DownloadTab._parse_duration_to_seconds` (src/gui/download_tab.py, lines
1587-1600).  Both catch the `ValueError` a failed `int()` raises and return 0;
the result is an `Int` because Python happily parses negative components. -/

/-- Model of `SongFilter._parse_duration`: `""` and `"00:00"` return 0 at once,
then `"MM:SS"` and `"HH:MM:SS"` are accepted, anything else (or a component
`int()` rejects) gives 0. -/
def parse_duration (s : String) : Int :=
  if s = "" || s = "00:00" then 0
  else
    match pySplitChar ':' s.data with
    | [m, sec] =>
      match pyInt m, pyInt sec with
      | some a, some b => a * 60 + b
      | _, _ => 0
    | [h, m, sec] =>
      match pyInt h, pyInt m, pyInt sec with
      | some a, some b, some c => a * 3600 + b * 60 + c
      | _, _, _ => 0
    | _ => 0

/-- Model of `DownloadTab._parse_duration_to_seconds`: requires a `':'`, splits,
accepts 2 or 3 parts, any exception gives 0. -/
def parse_duration_to_seconds (s : String) : Int :=
  if s.data.contains ':' then
    match pySplitChar ':' s.data with
    | [m, sec] =>
      match pyInt m, pyInt sec with
      | some a, some b => a * 60 + b
      | _, _ => 0
    | [h, m, sec] =>
      match pyInt h, pyInt m, pyInt sec with
      | some a, some b, some c => a * 3600 + b * 60 + c
      | _, _, _ => 0
    | _ => 0
  else 0

example : parse_duration "3:45" = 225 := by decide
example : parse_duration "1:02:03" = 3723 := by decide
example : parse_duration "" = 0 := by decide
example : parse_duration "garbage" = 0 := by decide
example : parse_duration "-3:45" = -135 := by decide

/-! ## fuzzywuzzy similarity (python-Levenshtein backend) -/

/-- One row step of the longest-common-subsequence table: `prev` is the
previous row (length `b.length + 1`), `cur` the value to the left in the new
row; produces the new row without its leading 0. -/
def lcsAux (c : Char) : List Char → List Nat → Nat → List Nat
  | [], _, _ => []
  | y :: ys, p0 :: p1 :: pr, cur =>
    let v := if c = y then p0 + 1 else max cur p1
    v :: lcsAux c ys (p1 :: pr) v
  | _ :: _, _, _ => []

/-- Length of the longest common subsequence of two character lists
(dynamic programming by rows). -/
def lcs (a b : List Char) : Nat :=
  (a.foldl (fun row c => 0 :: lcsAux c b row 0) (List.replicate (b.length + 1) 0)).getLastD 0

/-- Round a rational to the nearest integer, ties to even: Python's
`round` on the exactly-representable halves that arise here. -/
def roundHalfEven (q : ℚ) : Int :=
  let f := q.floor
  let r := q - f
  if r < 1/2 then f
  else if 1/2 < r then f + 1
  else if f % 2 = 0 then f else f + 1

/-- Round the fraction `a / b` (with `b ≠ 0`) to the nearest natural number,
ties to even: `roundHalfEven` restricted to the non-negative fractions of
`fuzz.ratio`, kept in `Nat` so concrete instances evaluate by `decide`. -/
def natRatioRound (a b : Nat) : Nat :=
  let q := a / b
  let r := a % b
  if 2 * r < b then q
  else if b < 2 * r then q + 1
  else if q % 2 = 0 then q else q + 1

/-- Model of `fuzz.ratio(s1, s2)` with the python-Levenshtein backend:
`int(round(100 * ratio))` where `ratio = (len1+len2-dist)/(len1+len2)` and
`dist` is the edit distance with substitution cost 2, which equals
`round(200*LCS(s1,s2)/(len1+len2))`; two empty strings give ratio 1.0,
hence 100. -/
def fuzz_ratio (s1 s2 : List Char) : Int :=
  let t := s1.length + s2.length
  if t = 0 then 100
  else (natRatioRound (200 * lcs s1 s2) t : Int)

/-- Rational `Levenshtein.ratio` (in `[0,1]`) used inside `partial_ratio`. -/
def levRatioQ (s1 s2 : List Char) : ℚ :=
  let t := s1.length + s2.length
  if t = 0 then 1 else 2 * (lcs s1 s2 : ℚ) / (t : ℚ)

/-- Length of the common run of `a` and `b` starting at their heads. -/
def runLen : List Char → List Char → Nat
  | x :: xs, y :: ys => if x = y then runLen xs ys + 1 else 0
  | _, _ => 0

/-- Longest matching block `(i, j, k)` of two lists: the longest common
contiguous run, ties to the smallest `i`, then the smallest `j` (the choice
`SequenceMatcher.find_longest_match` makes without junk). -/
def longestMatch (a b : List Char) : Nat × Nat × Nat :=
  (List.range (a.length + 1)).foldl
    (fun best i =>
      (List.range (b.length + 1)).foldl
        (fun best j =>
          let k := runLen (a.drop i) (b.drop j)
          if k > best.2.2 then (i, j, k) else best)
        best)
    (0, 0, 0)

/-- Matching blocks of two lists by greedy longest-block decomposition
(the recursion of `get_matching_blocks`); offsets are absolute. -/
def matchingBlocksAux (fuel : Nat) (a b : List Char) (offA offB : Nat) :
    List (Nat × Nat × Nat) :=
  match fuel with
  | 0 => []
  | fuel + 1 =>
    let (i, j, k) := longestMatch a b
    if k = 0 then []
    else
      matchingBlocksAux fuel (a.take i) (b.take j) offA offB ++
        [(offA + i, offB + j, k)] ++
        matchingBlocksAux fuel (a.drop (i + k)) (b.drop (j + k))
          (offA + i + k) (offB + j + k)

/-- Matching blocks including the terminating `(len(a), len(b), 0)` sentinel. -/
def matchingBlocks (a b : List Char) : List (Nat × Nat × Nat) :=
  matchingBlocksAux (a.length + b.length + 1) a b 0 0 ++ [(a.length, b.length, 0)]

/-- Model of `fuzz.partial_ratio(s1, s2)`: for each matching block of the
shorter string against the longer, score the shorter string against the
length-aligned window of the longer starting at the block's alignment; a
window ratio above 0.995 short-circuits to 100, otherwise the maximum window
ratio is rounded. -/
def fuzzWindowedRatio (s1 s2 : List Char) : Int :=
  let shorter := if s1.length ≤ s2.length then s1 else s2
  let longer := if s1.length ≤ s2.length then s2 else s1
  let scores := (matchingBlocks shorter longer).map (fun bl =>
    let longStart := if bl.2.1 > bl.1 then bl.2.1 - bl.1 else 0
    let window := (longer.drop longStart).take shorter.length
    levRatioQ shorter window)
  if scores.any (fun r => r > (995 : ℚ) / 1000) then 100
  else roundHalfEven (100 * scores.foldl max 0)

example : lcs "abcdefghij klmnopqrs".data "abcdefghij klmnopqrt".data = 19 := by decide
example : fuzz_ratio "abcdefghij klmnopqrs".data "abcdefghij klmnopqrt".data = 95 := by decide
example : fuzz_ratio "qabz".data "qab".data = 86 := by decide
example : fuzz_ratio "abz".data "qab".data = 67 := by decide
example : fuzz_ratio [] [] = 100 := by decide

/-! ## process_text.py -/

/-- Remove every whole-word (`\b`-delimited) occurrence of `w` from `s`,
scanning left to right over the original string as `re.sub` does: model of
`re.sub(r'\b' + re.escape(term) + r'\b', '', s)` for the non-empty word-led
noise terms.  `i` is the scan position, `fuel ≥ s.length - i`. -/
def removeWordGo (s w : List Char) (fuel i : Nat) : List Char :=
  match fuel with
  | 0 => []
  | fuel + 1 =>
    match s[i]? with
    | none => []
    | some c =>
      if boundedAt s w i then removeWordGo s w fuel (i + w.length)
      else c :: removeWordGo s w fuel (i + 1)

/-- Remove every whole-word occurrence of `w` from `s`. -/
def removeWord (w s : List Char) : List Char :=
  if w.isEmpty then s else removeWordGo s w (s.length + 1) 0

/-- Remove every `open …non-close… close` group: model of
`re.sub(r'\([^)]*\)', '', s)` and its bracket twin.  An opener with no later
closer does not match and is kept. -/
def removeDelim (opn cls : Char) : Nat → List Char → List Char
  | 0, _ => []
  | _, [] => []
  | fuel + 1, c :: t =>
    if c = opn then
      if t.contains cls then
        removeDelim opn cls fuel ((t.dropWhile (· ≠ cls)).drop 1)
      else c :: removeDelim opn cls fuel t
    else c :: removeDelim opn cls fuel t

/-- The noise terms of `clean_search_query`, in source order (the order
matters: `'official'` is removed before `'official audio'` can match). -/
def noiseTerms : List String :=
  ["official", "video", "music video", "lyric video", "audio",
   "official audio", "official music video", "lyrics", "hq", "hd",
   "full album", "full song", "live", "cover"]

/-- Model of `clean_search_query` (src/process_text.py, lines 97-128):
lower-case, strip each noise term as a whole word in order, drop
parenthesised and bracketed segments, collapse whitespace and strip. -/
def clean_search_query (query : String) : String :=
  let s := lowerL query.data
  let s := noiseTerms.foldl (fun acc w => removeWord w.data acc) s
  let s := removeDelim '(' ')' (s.length + 1) s
  let s := removeDelim '[' ']' (s.length + 1) s
  ⟨collapseWs s⟩

/-- First index of `s` at which the list `w` occurs, if any. -/
def findSubIdx (s w : List Char) : Option Nat :=
  (List.range (s.length + 1)).find? (fun i => matchesAt s w i)

/-- Split on the first occurrence of the separator word `sep`, the two lazy
groups of `^(.*?)\s*SEP\s*(.*?)$`: group 1 is everything before the separator
with its trailing whitespace given to `\s*`, group 2 everything after with its
leading whitespace given to `\s*`.  `none` when the separator does not occur. -/
def sepSplit (sep : List Char) (s : List Char) : Option (List Char × List Char) :=
  match findSubIdx s sep with
  | none => none
  | some p =>
    let g1 := (s.take p).reverse.dropWhile pyIsSpace |>.reverse
    let g2 := (s.drop (p + sep.length)).dropWhile pyIsSpace
    some (g1, g2)

/-- Split for the quote patterns `^(.*?)\s*Q(.*?)Q`: group 1 before the first
quote (trailing whitespace to `\s*`), group 2 strictly between the first and
the second quote; `none` unless two quotes occur. -/
def quoteSplit (q : Char) (s : List Char) : Option (List Char × List Char) :=
  let pre := s.takeWhile (· ≠ q)
  if pre.length = s.length then none
  else
    let rest := s.drop (pre.length + 1)
    let mid := rest.takeWhile (· ≠ q)
    if mid.length = rest.length then none
    else some (pre.reverse.dropWhile pyIsSpace |>.reverse, mid)

/-- The ordered separator patterns of `extract_song_info` with their group
order: `Artist - Song`, `Artist "Song"`, `Artist 'Song'`, `Artist: Song`,
`Artist | Song`, and `Song by Artist` whose groups are swapped (`true`). -/
def songInfoPatterns : List ((List Char → Option (List Char × List Char)) × Bool) :=
  [(sepSplit ['-'], false),
   (quoteSplit '"', false),
   (quoteSplit (Char.ofNat 39), false),
   (sepSplit [':'], false),
   (sepSplit ['|'], false),
   (sepSplit ['b', 'y'], true)]

/-- The first-match loop of `extract_song_info`: try each pattern in order,
return its stripped groups (swapped for the `by` pattern), or `("", title)`
stripped when none matches. -/
def songInfoGo (t : List Char) :
    List ((List Char → Option (List Char × List Char)) × Bool) → String × String
  | [] => ("", ⟨pyStripL t⟩)
  | (m, swap) :: rest =>
    match m t with
    | some (g1, g2) =>
      if swap then (⟨pyStripL g2⟩, ⟨pyStripL g1⟩) else (⟨pyStripL g1⟩, ⟨pyStripL g2⟩)
    | none => songInfoGo t rest

/-- Model of `extract_song_info` (src/process_text.py, lines 58-95):
`(artist, song)` from the first matching separator pattern. -/
def extract_song_info (title : String) : String × String :=
  songInfoGo title.data songInfoPatterns

example : extract_song_info "Artist - Song" = ("Artist", "Song") := by decide
example : extract_song_info "Wonderwall by Oasis" = ("Oasis", "Wonderwall") := by decide
example : extract_song_info "Hello" = ("", "Hello") := by decide
example : clean_search_query "Artist - Song Name (Official Audio)" = "artist - song name" := by decide

/-! ## song_filter.py: data model and exclusion gates -/

/-- A YouTube search result as the filter reads it: the values of the keys
`'title'`, `'channel'`, `'duration'` (each `.get` defaulting to `''`). -/
structure YTResult where
  title : String
  channel : String
  duration : String
deriving DecidableEq

/-- A Spotify track as the scorers read it: `'name'`, the artist names of
`'artists'`, `'duration_ms'` and `'popularity'` (defaults `''`, `[]`, `0`, `0`). -/
structure SpotifyTrack where
  name : String
  artists : List String
  duration_ms : Int
  popularity : Int
deriving DecidableEq

/-- The class constant `EXCLUSION_KEYWORDS` of `SongFilter`, in source order. -/
def EXCLUSION_KEYWORDS : List String :=
  ["live", "concert", "tour", "performance", "festival",
   "album", "full album", "playlist", "compilation",
   "cover version", "covers", "instrumental", "karaoke",
   "reaction", "review", "interview", "behind the scenes",
   "making of", "documentary", "trailer", "teaser",
   "how to", "tutorial", "lesson", "guide"]

/-- Search for `\blive\b.*\bconcert\b`: a bounded `live` somewhere before a
bounded `concert`. -/
def patLiveConcert (s : List Char) : Bool :=
  existsIdx s (fun i =>
    boundedAt s "live".data i &&
      existsIdx s (fun j => boundedAt s "concert".data j && i + 4 ≤ j))

/-- Search for `\blyrics?\s+video\b`: the optional `s` makes the two word
forms, each followed by whitespace and a bounded `video`. -/
def patLyricsVideo (s : List Char) : Bool :=
  wordGapWord s "lyric".data "video".data || wordGapWord s "lyrics".data "video".data

/-- A maximal digit run starting at `d0` followed by a word boundary, as
`\d+\b` requires (shorter runs end on a digit, itself a word character). -/
def digitsThenBoundary (s : List Char) (d0 : Nat) : Bool :=
  existsIdx s (fun e =>
    d0 < e && (((s.drop d0).take (e - d0)).all Char.isDigit) && !isWordAt s e)

/-- Search for `\b\d+\s*hour[s]?\b` (the multi-hour content pattern). -/
def patHours (s : List Char) : Bool :=
  let hourOk := fun j =>
    (matchesAt s "hours".data j && !isWordAt s (j + 5)) ||
      (matchesAt s "hour".data j && !isWordAt s (j + 4))
  existsIdx s (fun i =>
    leftBoundary s i &&
      (match s[i]? with | some c => c.isDigit | none => false) &&
      existsIdx s (fun k =>
        i < k && (((s.drop i).take (k - i)).all Char.isDigit) &&
          existsIdx s (fun j => k ≤ j && allWsBetween s k j && hourOk j)))

/-- Search for `\bmix\s*#?\d+\b` (DJ-mix numbering). -/
def patMixNum (s : List Char) : Bool :=
  existsIdx s (fun i =>
    matchesAt s "mix".data i && leftBoundary s i &&
      existsIdx s (fun j =>
        i + 3 ≤ j && allWsBetween s (i + 3) j &&
          ((s[j]? = some '#' && digitsThenBoundary s (j + 1)) ||
            digitsThenBoundary s j)))

/-- The class constant `EXCLUSION_PATTERNS`, as one search predicate per
regex, in source order. -/
def exclusionPatternsHit (s : List Char) : Bool :=
  patLiveConcert s ||
  wordGapWord s "full".data "album".data ||
  wordGapWord s "cover".data "by".data ||
  wordGapWord s "reaction".data "to".data ||
  patLyricsVideo s ||
  wordGapWord s "official".data "trailer".data

/-- The `additional_patterns` checked only when `relaxed` is false. -/
def additionalPatternsHit (s : List Char) : Bool :=
  (wordGapWord s "live".data "at".data || wordGapWord s "live".data "in".data ||
    wordGapWord s "live".data "from".data) ||
  patHours s ||
  patMixNum s ||
  wordGapWord s "full".data "concert".data ||
  existsIdx s (fun i => boundedAt s "setlist".data i) ||
  wordGapWord s "mashup".data "of".data

/-- Model of `SongFilter._contains_exclusion_keywords` (lines 114-143):
keyword substrings, then the exclusion regexes, then (unless relaxed) the
additional regexes. -/
def contains_exclusion_keywords (title : String) (relaxed : Bool) : Bool :=
  let tl := lowerL title.data
  EXCLUSION_KEYWORDS.any (fun kw => containsSub tl kw.data) ||
  exclusionPatternsHit tl ||
  (!relaxed && additionalPatternsHit tl)

example : contains_exclusion_keywords "Staying Alive" false = true := by decide
example : contains_exclusion_keywords "Some Song Name" false = false := by decide
example : contains_exclusion_keywords "Banger mix #3" false = true := by decide
example : contains_exclusion_keywords "Banger mix #3" true = false := by decide

/-! ## song_filter.py: core-title extraction and deduplication -/

/-- Leftmost match of `\s*OPN kw .*? CLS\s*` (case-insensitive keyword right
after the opener, lazily up to the first closer): the span `[start, stop)` to
remove, or `none`. -/
def blockMatch (opn cls : Char) (kw : List Char) (s : List Char) :
    Option (Nat × Nat) :=
  match (List.range (s.length + 1)).find? (fun t =>
      (s[t]? = some opn) && matchesAtCI s kw (t + 1) &&
        ((List.range (s.length + 1)).any (fun u =>
          t + 1 + kw.length ≤ u && s[u]? = some cls))) with
  | none => none
  | some t =>
    match (List.range (s.length + 1)).find? (fun u =>
        t + 1 + kw.length ≤ u && s[u]? = some cls) with
    | none => none
    | some u => some (t - wsRunBefore s t, u + 1 + wsRunAfter s (u + 1))

/-- Remove every `\s*OPN kw …CLS\s*` group, continuing after each removal:
model of `re.sub(r'\s*\(official.*?\)\s*', '', s, flags=IGNORECASE)` and its
bracket twin. -/
def subBlock (opn cls : Char) (kw : List Char) : Nat → List Char → List Char
  | 0, s => s
  | fuel + 1, s =>
    match blockMatch opn cls kw s with
    | none => s
    | some (a, b) => s.take a ++ subBlock opn cls kw fuel (s.drop b)

/-- The first of the given (lower-case) words that matches case-insensitively
at index `p`, with its length (regex alternation tries left to right). -/
def firstWordAt (words : List (List Char)) (s : List Char) (p : Nat) : Option Nat :=
  match words.find? (fun w => matchesAtCI s w p) with
  | some w => some w.length
  | none => none

/-- Leftmost match of `\s*(official|music|lyric|lyrics)\s*(video|audio)?\s*`:
the span to remove, or `none`. -/
def wordDecorMatch (s : List Char) : Option (Nat × Nat) :=
  let words := ["official".data, "music".data, "lyric".data, "lyrics".data]
  match (List.range (s.length + 1)).find? (fun p => (firstWordAt words s p).isSome) with
  | none => none
  | some p =>
    match firstWordAt words s p with
    | none => none
    | some wlen =>
      let q := p + wlen + wsRunAfter s (p + wlen)
      let stop :=
        if matchesAtCI s "video".data q || matchesAtCI s "audio".data q then
          q + 5 + wsRunAfter s (q + 5)
        else q
      some (p - wsRunBefore s p, stop)

/-- Remove every decorative-word group, continuing after each removal: model
of `re.sub(r'\s*(official|music|lyric|lyrics)\s*(video|audio)?\s*', '', s,
flags=IGNORECASE)`. -/
def subWordDecor : Nat → List Char → List Char
  | 0, s => s
  | fuel + 1, s =>
    match wordDecorMatch s with
    | none => s
    | some (a, b) => s.take a ++ subWordDecor fuel (s.drop b)

/-- Model of `re.sub(r'\s*\|\s*.*$', '', s)`: cut from the first `|` (and the
whitespace before it) to the end. -/
def subPipeTail (s : List Char) : List Char :=
  match findSubIdx s ['|'] with
  | none => s
  | some p => s.take (p - wsRunBefore s p)

/-- Model of `re.sub(r'\s*-\s*official.*$', '', s, flags=IGNORECASE)`: cut
from the first `-` that is followed (over whitespace) by `official`. -/
def subDashOfficialTail (s : List Char) : List Char :=
  match (List.range (s.length + 1)).find? (fun p =>
      s[p]? = some '-' &&
        matchesAtCI s "official".data (p + 1 + wsRunAfter s (p + 1))) with
  | none => s
  | some p => s.take (p - wsRunBefore s p)

/-- Model of `SongFilter._extract_core_title` (lines 180-192): the five
substitutions in source order, then whitespace collapse and strip. -/
def extract_core_title (title : String) : String :=
  let s := title.data
  let s := subBlock '(' ')' "official".data (s.length + 1) s
  let s := subBlock '[' ']' "official".data (s.length + 1) s
  let s := subWordDecor (s.length + 1) s
  let s := subPipeTail s
  let s := subDashOfficialTail s
  ⟨collapseWs s⟩

example : extract_core_title "Song Name (Official Video)" = "Song Name" := by decide
example : extract_core_title "Artist - Song | Channel Stuff" = "Artist - Song" := by decide
example : extract_core_title "Song Name official video extra" = "Song Nameextra" := by decide
example : extract_core_title "qab" = "qab" := by decide
example : extract_core_title "lyrics" = "s" := by decide

/-- Model of `SongFilter._are_durations_similar` (lines 194-201): both parsed,
within 10 seconds.  The `except` branch is dead code: `_parse_duration` never
raises. -/
def are_durations_similar (d1 d2 : String) : Bool :=
  (parse_duration d1 - parse_duration d2).natAbs ≤ 10

/-- The `official_indicators` list of `_is_better_source`. -/
def officialIndicators : List String := ["official", "records", "music", "vevo"]

/-- A channel counts as official when its lower-cased name contains one of the
indicator substrings. -/
def officialChannel (r : YTResult) : Bool :=
  officialIndicators.any (fun w => containsSub (lowerL r.channel.data) w.data)

/-- Model of `SongFilter._is_better_source` (lines 203-223): prefer the
official channel, else the strictly shorter title. -/
def is_better_source (r1 r2 : YTResult) : Bool :=
  if officialChannel r1 && !officialChannel r2 then true
  else if officialChannel r2 && !officialChannel r1 then false
  else r1.title.length < r2.title.length

/-- The duplicate test of `_remove_duplicates`'s inner loop: core-title fuzzy
ratio above 80 and similar durations; `r` is the candidate being inserted,
`ex` an already-kept representative (the ratio is taken in that order). -/
def dupSimilar (r ex : YTResult) : Bool :=
  fuzz_ratio (lowerL (extract_core_title r.title).data)
      (lowerL (extract_core_title ex.title).data) > 80 &&
    are_durations_similar r.duration ex.duration

/-- One step of `_remove_duplicates`: scan the kept list for the first
similar representative; replace it when the newcomer is the better source,
drop the newcomer otherwise; append when nothing is similar. -/
def dedupInsert (r : YTResult) : List YTResult → List YTResult
  | [] => [r]
  | ex :: rest =>
    if dupSimilar r ex then
      if is_better_source r ex then r :: rest else ex :: rest
    else ex :: dedupInsert r rest

/-- Model of `SongFilter._remove_duplicates` (lines 145-178).  The
`search_query` parameter is unused by the source body and kept for the
signature. -/
def remove_duplicates (results : List YTResult) (_searchQuery : String) :
    List YTResult :=
  results.foldl (fun acc r => dedupInsert r acc) []

/-! ## song_filter.py: relevance scoring and the validator -/

/-- Search for `[\w\s]+ - [\w\s]+` (and the analogous ` by ` form): a word-or-
space character, the literal separator with its spaces, a word-or-space
character. -/
def patSpacedSep (s sep : List Char) : Bool :=
  let cls := fun c => pyIsWord c || pyIsSpace c
  existsIdx s (fun j =>
    (match s[j]? with | some c => cls c | none => false) &&
      matchesAt s sep (j + 1) &&
      (match s[j + 1 + sep.length]? with | some c => cls c | none => false))

/-- Search for `[\w\s]+\s*SEP\s*[\w\s]+` for a single separator character:
since `\s ⊆ [\w\s]`, this reduces to the separator with word-or-space
neighbours. -/
def patTightSep (s : List Char) (sep : Char) : Bool :=
  let cls := fun c => pyIsWord c || pyIsSpace c
  existsIdx s (fun k =>
    s[k]? = some sep && 1 ≤ k &&
      (match s[k - 1]? with | some c => cls c | none => false) &&
      (match s[k + 1]? with | some c => cls c | none => false))

/-- Search for `\(official.*\)` (or the bracketed form): the literal opener
plus keyword, with a closer anywhere after. -/
def patDecorated (s : List Char) (opn cls : Char) : Bool :=
  existsIdx s (fun i =>
    s[i]? = some opn && matchesAt s "official".data (i + 1) &&
      existsIdx s (fun u => i + 9 ≤ u && s[u]? = some cls))

/-- Search for `[\w\s]+\s*\([\w\s]+\s+remix\)`: an opener with a word-or-space
character before it, word-or-space characters inside ending in whitespace,
then `remix)`. -/
def patParenRemix (s : List Char) : Bool :=
  let cls := fun c => pyIsWord c || pyIsSpace c
  existsIdx s (fun k =>
    s[k]? = some '(' && 1 ≤ k &&
      (match s[k - 1]? with | some c => cls c | none => false) &&
      existsIdx s (fun m =>
        k + 3 ≤ m && matchesAt s "remix)".data m &&
          (match s[m - 1]? with | some c => pyIsSpace c | none => false) &&
          (((s.drop (k + 1)).take (m - (k + 1))).all cls)))

/-- Search for `[\w\s]+\s+remix`: `remix` preceded by whitespace preceded by a
word-or-space character. -/
def patSpaceRemix (s : List Char) : Bool :=
  let cls := fun c => pyIsWord c || pyIsSpace c
  existsIdx s (fun m =>
    matchesAt s "remix".data m && 2 ≤ m &&
      (match s[m - 1]? with | some c => pyIsSpace c | none => false) &&
      (match s[m - 2]? with | some c => cls c | none => false))

/-- Search for `\w+\s+remix`: `remix` preceded by a whitespace run of length
at least one that is preceded by a word character. -/
def patWordRemix (s : List Char) : Bool :=
  existsIdx s (fun m =>
    matchesAt s "remix".data m &&
      existsIdx s (fun j =>
        j + 1 < m + 1 && isWordAt s j && j + 1 < m && allWsBetween s (j + 1) m &&
          j + 2 ≤ m))

/-- Search for `\(.*remix.*\)`: an opener, `remix` after it, a closer after
that. -/
def patParenAnyRemix (s : List Char) : Bool :=
  existsIdx s (fun k =>
    s[k]? = some '(' &&
      existsIdx s (fun m =>
        k + 1 ≤ m && matchesAt s "remix".data m &&
          existsIdx s (fun u => m + 5 ≤ u && s[u]? = some ')')))

/-- Search for `remix\s+by\s+\w+`. -/
def patRemixBy (s : List Char) : Bool :=
  existsIdx s (fun m =>
    matchesAt s "remix".data m &&
      existsIdx s (fun j =>
        m + 5 < j && allWsBetween s (m + 5) j && matchesAt s "by".data j &&
          existsIdx s (fun k =>
            j + 2 < k && allWsBetween s (j + 2) k && isWordAt s k)))

/-- Model of `SongFilter._check_song_patterns` (lines 493-529): count the
eight song-shape patterns on the lower-cased title, detect the three remix
shapes, and score 90 / 75 / 40. -/
def check_song_patterns (title : String) : ℚ :=
  let tl := lowerL title.data
  let hits : List Bool :=
    [patSpacedSep tl " - ".data,
     patSpacedSep tl " by ".data,
     patTightSep tl '|',
     patTightSep tl ':',
     patDecorated tl '(' ')',
     patDecorated tl '[' ']',
     patParenRemix tl,
     patSpaceRemix tl]
  let patternMatches := (hits.filter id).length
  let isRemix := patWordRemix tl || patParenAnyRemix tl || patRemixBy tl
  if 2 ≤ patternMatches || isRemix then 90
  else if patternMatches = 1 then 75
  else 40

/-- Model of `SongFilter._calculate_youtube_relevance` (lines 456-491): fuzzy
query similarity (weight 0.5), fraction of query words present in the title
(0.3), song-pattern score (0.2), clamped to `[0, 100]`. -/
def calculate_youtube_relevance (r : YTResult) (searchQuery : String) : ℚ :=
  let titleClean := lowerL (clean_search_query r.title).data
  let queryClean := lowerL (clean_search_query searchQuery).data
  let querySimilarity : ℚ := (fuzz_ratio queryClean titleClean : ℚ)
  let queryWords := pySplitWs queryClean
  let titleWords := pySplitWs titleClean
  let wordMatches := (queryWords.filter (fun w => titleWords.contains w)).length
  let wordScore : ℚ :=
    if queryWords.length ≠ 0 then
      ((wordMatches : ℚ) / (queryWords.length : ℚ)) * 100
    else 0
  let patternScore := check_song_patterns r.title
  let relevance := querySimilarity * 0.5 + wordScore * 0.3 + patternScore * 0.2
  min 100 (max 0 relevance)

/-- Model of `SongFilter._is_valid_song` (lines 83-112): duration gate,
exclusion gate, then the adaptive relevance gate (threshold 25 relaxed, 40
otherwise). -/
def is_valid_song (r : YTResult) (searchQuery : String) (relaxed : Bool) : Bool :=
  let titleLower := strLower r.title
  let duration := parse_duration r.duration
  if duration < 30 || duration > 600 then false
  else if contains_exclusion_keywords titleLower relaxed then false
  else
    let relevanceScore := calculate_youtube_relevance r searchQuery
    let threshold : ℚ := if relaxed then 25 else 40
    if relevanceScore < threshold then false else true

/-! ## song_filter.py: artist search and diversification -/

/-- The character class `[a-zA-Z\s&]` of the artist-search patterns. -/
def artistClassChar (c : Char) : Bool :=
  c.isAlpha || pyIsSpace c || c = '&'

/-- Match of `^[a-zA-Z\s&]+$`. -/
def artistPatPlain (q : List Char) : Bool :=
  !q.isEmpty && q.all artistClassChar

/-- Match of `^[a-zA-Z\s&]+ WORDs?$` (the `songs?` / `hits?` patterns): the
query ends in a space and the word, optionally pluralised, after a non-empty
class prefix. -/
def artistPatSuffix (q word : List Char) : Bool :=
  let one := fun (w : List Char) =>
    w.isSuffixOf q && q.length > w.length &&
      ((q.take (q.length - w.length)).all artistClassChar)
  one (' ' :: word ++ ['s']) || one (' ' :: word)

/-- Match of `^best of [a-zA-Z\s&]+$`. -/
def artistPatBestOf (q : List Char) : Bool :=
  "best of ".data.isPrefixOf q && q.length > 8 && ((q.drop 8).all artistClassChar)

/-- The secondary check applied after any pattern matches: no ` - `, `(` or
`[` in the query. -/
def artistInnerOk (q : List Char) : Bool :=
  !containsSub q " - ".data && !q.contains '(' && !q.contains '['

/-- Model of `SongFilter._is_artist_search` (lines 225-243): lower-case and
strip, then for each pattern in order return true when it matches and the
inner check passes. -/
def is_artist_search (searchQuery : String) : Bool :=
  let ql := pyStripL (lowerL searchQuery.data)
  [artistPatPlain, (artistPatSuffix · "song".data), (artistPatSuffix · "hit".data),
    artistPatBestOf].any (fun p => p ql && artistInnerOk ql)

/-- Join words with single spaces: Python `' '.join(words)`. -/
def joinSpace : List (List Char) → List Char
  | [] => []
  | [w] => w
  | w :: ws => w ++ ' ' :: joinSpace ws

/-- The prefix-removal loop of `_extract_song_from_title`: for `i` from the
number of artist words down to 1, strip the first `i` artist words when the
lower-cased title starts with that phrase, then `.strip(' -')`. -/
def stripArtistPhrase (titleL titleOrig : List Char) (ws : List (List Char)) :
    Nat → List Char
  | 0 => titleOrig
  | i + 1 =>
    let phrase := joinSpace (ws.take (i + 1))
    if phrase.isPrefixOf titleL then
      pyStripChars [' ', '-'] (titleOrig.drop phrase.length)
    else stripArtistPhrase titleL titleOrig ws i

/-- Model of `re.sub(r'^\s*[-–]\s*', '', s)`: drop one leading dash or
en-dash with its surrounding whitespace. -/
def dropLeadingDash (s : List Char) : List Char :=
  let a := wsRunAfter s 0
  match s[a]? with
  | some c =>
    if c = '-' || c = Char.ofNat 8211 then s.drop (a + 1 + wsRunAfter s (a + 1))
    else s
  | none => s

/-- Model of `re.sub(r'\s*\(.*?\)\s*$', '', s)` (and the bracket twin): when
some closer is followed only by whitespace to the end and some opener stands
before it, cut from the first such opener (and the whitespace before it). -/
def dropTrailingDelim (opn cls : Char) (s : List Char) : List Char :=
  match (List.range (s.length + 1)).find? (fun t =>
      s[t]? = some opn &&
        existsIdx s (fun u =>
          t < u && s[u]? = some cls && allWsBetween s (u + 1) s.length)) with
  | some t => s.take (t - wsRunBefore s t)
  | none => s

/-- The trailing decorative words of `_extract_song_from_title`, in
alternation order. -/
def trailingDecorWords : List String :=
  ["official", "music", "video", "audio", "lyric", "lyrics"]

/-- Model of `re.sub(r'\s*(official|music|video|audio|lyric|lyrics)\s*$', '',
s, flags=IGNORECASE)`: drop the word when it ends the whitespace-stripped
string, with the whitespace before it. -/
def dropTrailingDecorWord (s : List Char) : List Char :=
  let core := s.take (s.length - wsRunBefore s s.length)
  match trailingDecorWords.find? (fun w => w.data.isSuffixOf (lowerL core)) with
  | some w =>
    let cut := core.length - w.length
    core.take (cut - wsRunBefore core cut)
  | none => s

/-- Model of `SongFilter._extract_song_from_title` (lines 282-302). -/
def extract_song_from_title (title : String) (artistQuery : String) : String :=
  let artistWords := pySplitWs (lowerL artistQuery.data)
  let titleClean :=
    stripArtistPhrase (lowerL title.data) title.data artistWords artistWords.length
  let titleClean := dropLeadingDash titleClean
  let titleClean := dropTrailingDelim '(' ')' titleClean
  let titleClean := dropTrailingDelim '[' ']' titleClean
  let titleClean := dropTrailingDecorWord titleClean
  ⟨pyStripL titleClean⟩

/-- Model of `SongFilter._score_result_quality` (lines 304-327). -/
def score_result_quality (r : YTResult) : ℚ :=
  let title := lowerL r.title.data
  let channel := lowerL r.channel.data
  (if ["official", "records", "music", "vevo"].any
      (fun w => containsSub channel w.data) then 3 else 0) +
  (if ["official video", "official audio"].any
      (fun w => containsSub title w.data) then 2 else 0) +
  (if ["cover", "karaoke", "instrumental"].any
      (fun w => containsSub title w.data) then -2 else 0) +
  (if title.length < 100 then 1 else 0)

/-- Python `max(xs, key=f)`: the first element with the maximal key,
`none` for an empty list. -/
def pyMaxBy (f : YTResult → ℚ) (l : List YTResult) : Option YTResult :=
  l.foldl
    (fun acc x =>
      match acc with
      | none => some x
      | some b => if f x > f b then some x else acc)
    none

/-- Append a result to the group at index `i`. -/
def addToGroup : List (List Char × List YTResult) → Nat → YTResult →
    List (List Char × List YTResult)
  | [], _, _ => []
  | g :: gs, 0, r => (g.1, g.2 ++ [r]) :: gs
  | g :: gs, i + 1, r => g :: addToGroup gs i r

/-- The grouping step of `_ensure_artist_variety`: the extracted song part
joins the first group whose key is more than 70 similar, else it opens a new
group (Python dict insertion order is the list order). -/
def varietyGroupStep (searchQuery : String)
    (gs : List (List Char × List YTResult)) (r : YTResult) :
    List (List Char × List YTResult) :=
  let songPart := (extract_song_from_title r.title searchQuery).data
  match gs.findIdx? (fun g => fuzz_ratio (lowerL songPart) (lowerL g.1) > 70) with
  | some i => addToGroup gs i r
  | none => gs ++ [(songPart, [r])]

/-- Stable descending insertion by key: Python's stable sort with
`reverse=True` (equal keys keep their original order). -/
def insertDescBy (f : YTResult → ℚ) (x : YTResult) : List YTResult → List YTResult
  | [] => [x]
  | y :: ys => if f x ≥ f y then x :: y :: ys else y :: insertDescBy f x ys

/-- Stable descending sort by key. -/
def sortDescBy (f : YTResult → ℚ) : List YTResult → List YTResult
  | [] => []
  | x :: t => insertDescBy f x (sortDescBy f t)

/-- Model of `SongFilter._ensure_artist_variety` (lines 245-280): at most 5
results pass through unchanged; otherwise group by song part, keep the
best-quality representative per group, sort by relevance descending, return
the top 10. -/
def ensure_artist_variety (results : List YTResult) (searchQuery : String) :
    List YTResult :=
  if results.length ≤ 5 then results
  else
    let groups := results.foldl (varietyGroupStep searchQuery) []
    let diverse := groups.filterMap (fun g => pyMaxBy score_result_quality g.2)
    let sorted := sortDescBy (fun r => calculate_youtube_relevance r searchQuery) diverse
    sorted.take 10

/-- Model of `SongFilter.filter_youtube_results` (lines 50-81): validate with
the adaptive criteria, deduplicate, diversify artist searches, and cut to 5. -/
def filter_youtube_results (youtubeResults : List YTResult) (searchQuery : String) :
    List YTResult :=
  let isArtistQuery := is_artist_search searchQuery
  let validResults := youtubeResults.filter
    (fun r => is_valid_song r searchQuery isArtistQuery)
  let deduplicated := remove_duplicates validResults searchQuery
  let deduplicated :=
    if is_artist_search searchQuery then ensure_artist_variety deduplicated searchQuery
    else deduplicated
  if deduplicated.length > 5 then deduplicated.take 5 else deduplicated

/-! ## song_filter.py: cross-provider confidence and the inclusion policy -/

/-- The matching thresholds of `SongFilter` (class constants). -/
def HIGH_CONFIDENCE_THRESHOLD : ℚ := 80

/-- Threshold below which a Spotify match is only medium confidence. -/
def MEDIUM_CONFIDENCE_THRESHOLD : ℚ := 60

/-- Relevance threshold for the low-Spotify-confidence fallback. -/
def YOUTUBE_RELEVANCE_THRESHOLD : ℚ := 65

/-- Relevance threshold when no Spotify match exists at all. -/
def NON_SPOTIFY_THRESHOLD : ℚ := 70

/-- The `DURATION_TOLERANCE` class constant (seconds). -/
def DURATION_TOLERANCE : Nat := 5

/-- Model of `SongFilter._calculate_title_similarity` (lines 390-415): fuzzy
ratio of the cleaned titles, at least 85 when the track name is a substring
of the cleaned YouTube title, plus a capped 15-point boost when the lead
artist appears in it. -/
def calculate_title_similarity (youtubeTitle spotifyName : String)
    (spotifyArtists : List String) : ℚ :=
  let youtubeClean := (clean_search_query youtubeTitle).data
  let spotifyClean := (clean_search_query spotifyName).data
  let sim : Int := fuzz_ratio youtubeClean spotifyClean
  let sim := if containsSub (lowerL youtubeClean) (lowerL spotifyClean) then
    max sim 85 else sim
  let artistInTitle :=
    match spotifyArtists with
    | [] => false
    | a :: _ => containsSub (lowerL youtubeClean) (lowerL (clean_search_query a).data)
  let sim := if artistInTitle then min 100 (sim + 15) else sim
  (sim : ℚ)

/-- Model of `SongFilter._calculate_duration_similarity` (lines 417-433):
0 when either duration is unknown, then 100 / 80 / 60 / 40 / 0 by the gap. -/
def calculate_duration_similarity (youtubeDuration spotifyDuration : Int) : ℚ :=
  if youtubeDuration = 0 || spotifyDuration = 0 then 0
  else
    let diff := (youtubeDuration - spotifyDuration).natAbs
    if diff ≤ DURATION_TOLERANCE then 100
    else if diff ≤ 10 then 80
    else if diff ≤ 20 then 60
    else if diff ≤ 30 then 40
    else 0

/-- Model of `SongFilter._calculate_artist_similarity` (lines 435-454):
neutral 50 without artist data, else the best of 90-for-substring or the
fuzzy partial ratio over all artists. -/
def calculate_artist_similarity (youtubeTitle : String)
    (spotifyArtists : List String) : ℚ :=
  if spotifyArtists.isEmpty then 50
  else
    let youtubeClean := lowerL (clean_search_query youtubeTitle).data
    ((spotifyArtists.foldl
      (fun m a =>
        let artistClean := lowerL (clean_search_query a).data
        if containsSub youtubeClean artistClean then max m 90
        else max m (fuzzWindowedRatio artistClean youtubeClean))
      0 : Int) : ℚ)

/-- Model of `SongFilter.calculate_spotify_match_confidence` (lines 355-388):
title 40%, duration 35%, artist 25%, clamped to `[0, 100]`. -/
def calculate_spotify_match_confidence (r : YTResult) (t : SpotifyTrack) : ℚ :=
  let youtubeDuration := parse_duration r.duration
  let spotifyDuration := t.duration_ms.fdiv 1000
  let titleScore := calculate_title_similarity r.title t.name t.artists
  let durationScore := calculate_duration_similarity youtubeDuration spotifyDuration
  let artistScore := calculate_artist_similarity r.title t.artists
  let confidence := titleScore * 0.4 + durationScore * 0.35 + artistScore * 0.25
  min 100 (max 0 confidence)

/-- Model of `SongFilter.should_include_result` (lines 531-566): the tiered
decision table returning `(should_include, reason, confidence_score)`. -/
def should_include_result (r : YTResult) (spotifyTrack : Option SpotifyTrack)
    (searchQuery : String) : Bool × String × ℚ :=
  match spotifyTrack with
  | some track =>
    let confidence := calculate_spotify_match_confidence r track
    if confidence ≥ HIGH_CONFIDENCE_THRESHOLD then
      (true, "high_confidence_spotify", confidence)
    else if confidence ≥ MEDIUM_CONFIDENCE_THRESHOLD then
      (true, "medium_confidence_spotify", confidence)
    else
      let youtubeRelevance := calculate_youtube_relevance r searchQuery
      if youtubeRelevance ≥ YOUTUBE_RELEVANCE_THRESHOLD then
        (true, "youtube_only", youtubeRelevance)
      else (false, "low_confidence", confidence)
  | none =>
    let youtubeRelevance := calculate_youtube_relevance r searchQuery
    if youtubeRelevance ≥ NON_SPOTIFY_THRESHOLD then
      (true, "youtube_only", youtubeRelevance)
    else (false, "irrelevant", youtubeRelevance)

/-! ## download_tab.py: the secondary live-search matcher -/

/-- The score the loop body of `_find_best_spotify_match` (lines 1502-1541)
computes for one track against the parsed YouTube duration. -/
def liveMatchScore (youtubeDuration : Int) (track : SpotifyTrack) : ℚ :=
  let spotifyDuration := track.duration_ms.fdiv 1000
  let score : ℚ :=
    if spotifyDuration > 0 then
      let diff := (spotifyDuration - youtubeDuration).natAbs
      if diff ≤ 5 then 0.6
      else if diff ≤ 15 then 0.3
      else 0.1
    else 0.3
  let score := score + (track.popularity : ℚ) / 100 * 0.3
  score + (if track.name ≠ "" && !track.artists.isEmpty then 0.1 else 0)

/-- The strictly-improving best-tracking loop of `_find_best_spotify_match`
(`best_match`/`best_score` start at `None`/0 and update on `score >
best_score`). -/
def bestTrackFold (youtubeDuration : Int) (acc : Option SpotifyTrack × ℚ) :
    List SpotifyTrack → Option SpotifyTrack × ℚ
  | [] => acc
  | track :: rest =>
    let score := liveMatchScore youtubeDuration track
    bestTrackFold youtubeDuration
      (if score > acc.2 then (some track, score) else acc) rest

/-- Model of `DownloadTab._find_best_spotify_match`: the best-scoring track
when its score exceeds 0.4, else no match. -/
def find_best_spotify_match (spotifyResults : List SpotifyTrack)
    (youtubeResult : YTResult) : Option SpotifyTrack :=
  if spotifyResults.isEmpty then none
  else
    let youtubeDuration := parse_duration_to_seconds youtubeResult.duration
    let best := bestTrackFold youtubeDuration (none, 0) spotifyResults
    if best.2 > 0.4 then best.1 else none

/-! ## Support lemmas -/

/-- Members of a part of `pySplitChar` are members of the split list. -/
theorem mem_of_mem_pySplitChar {sep : Char} :
    ∀ {l p : List Char}, p ∈ pySplitChar sep l → ∀ {c : Char}, c ∈ p → c ∈ l := by
  intro l
  induction l with
  | nil =>
    intro p hp c hc
    simp only [pySplitChar, List.mem_singleton] at hp
    subst hp
    exact absurd hc (List.not_mem_nil c)
  | cons a t ih =>
    intro p hp c hc
    by_cases ha : a = sep
    · simp only [pySplitChar, if_pos ha] at hp
      rcases List.mem_cons.1 hp with hp | hp
      · subst hp; exact absurd hc (List.not_mem_nil c)
      · exact List.mem_cons_of_mem a (ih hp hc)
    · simp only [pySplitChar, if_neg ha] at hp
      cases hq : pySplitChar sep t with
      | nil =>
        rw [hq] at hp
        simp only [List.mem_singleton] at hp
        subst hp
        simp only [List.mem_singleton] at hc
        subst hc
        exact List.mem_cons_self c t
      | cons q qs =>
        rw [hq] at hp
        rcases List.mem_cons.1 hp with hp | hp
        · subst hp
          rcases List.mem_cons.1 hc with hc | hc
          · subst hc; exact List.mem_cons_self c t
          · exact List.mem_cons_of_mem a
              (ih (by rw [hq]; exact List.mem_cons_self q qs) hc)
        · exact List.mem_cons_of_mem a
            (ih (by rw [hq]; exact List.mem_cons_of_mem q hp) hc)

/-- Members of the stripped list are members of the original. -/
theorem mem_of_mem_pyStripL {l : List Char} {c : Char} (h : c ∈ pyStripL l) : c ∈ l := by
  unfold pyStripL at h
  rw [List.mem_reverse] at h
  have h2 := (List.dropWhile_sublist (l := (l.dropWhile pyIsSpace).reverse)
    (p := pyIsSpace)).mem h
  rw [List.mem_reverse] at h2
  exact (List.dropWhile_sublist (l := l) (p := pyIsSpace)).mem h2

/-- A Python `int` of a string without a minus sign is non-negative. -/
theorem pyInt_nonneg {l : List Char} (hd : '-' ∉ l) {v : Int}
    (hv : pyInt l = some v) : 0 ≤ v := by
  unfold pyInt at hv
  split at hv
  · rename_i t ht
    exact absurd (mem_of_mem_pyStripL (ht ▸ List.mem_cons_self '-' t)) hd
  · rcases Option.map_eq_some'.1 hv with ⟨n, _, rfl⟩
    exact Int.ofNat_nonneg n
  · rcases Option.map_eq_some'.1 hv with ⟨n, _, rfl⟩
    exact Int.ofNat_nonneg n

/-- The lower-case letters `pyLowerChar` maps into. -/
def asciiLowers : List Char :=
  ['a', 'b', 'c', 'd', 'e', 'f', 'g', 'h', 'i', 'j', 'k', 'l', 'm',
   'n', 'o', 'p', 'q', 'r', 's', 't', 'u', 'v', 'w', 'x', 'y', 'z']

/-- Lower-casing a character fixes it or produces a lower-case letter. -/
theorem pyLowerChar_cases (c : Char) :
    pyLowerChar c = c ∨ pyLowerChar c ∈ asciiLowers := by
  unfold pyLowerChar
  split <;> first
    | exact Or.inl rfl
    | exact Or.inr (by decide)

/-- Lower-case letters are fixed points of `pyLowerChar`. -/
theorem pyLowerChar_fixed_of_lower {c : Char} (h : c ∈ asciiLowers) :
    pyLowerChar c = c := by
  fin_cases h <;> rfl

/-- Lower-casing one character is idempotent. -/
theorem pyLowerChar_idem (c : Char) : pyLowerChar (pyLowerChar c) = pyLowerChar c := by
  rcases pyLowerChar_cases c with h | h
  · rw [h]; exact h
  · exact pyLowerChar_fixed_of_lower h

/-- Lower-casing a character list is idempotent. -/
theorem lowerL_idem (s : List Char) : lowerL (lowerL s) = lowerL s := by
  unfold lowerL
  rw [List.map_map]
  exact List.map_congr_left (fun c _ => pyLowerChar_idem c)

/-! ## Claim theorems -/

/-- Claim C2, counterexample: `parse_duration` is not non-negative on every
input; Python's `int` accepts a signed component, so `"-3:45"` parses to
`-3*60 + 45 = -135 < 0`. -/
theorem c2_parse_duration_negative_counterexample :
    parse_duration "-3:45" = -135 ∧ parse_duration "-3:45" < 0 := by
  constructor
  · decide
  · decide

/-- Claim C2, amended: `parse_duration` is total (the embedding is a total
function and the source catches `ValueError`), the four pinned examples hold,
and the result is non-negative for every input without a minus sign; with a
minus sign it can be negative (see the counterexample). -/
theorem c2_parse_duration_amended :
    parse_duration "3:45" = 225 ∧ parse_duration "1:02:03" = 3723 ∧
      parse_duration "" = 0 ∧ parse_duration "garbage" = 0 ∧
      ∀ s : String, '-' ∉ s.data → 0 ≤ parse_duration s := by
  refine ⟨by decide, by decide, by decide, by decide, ?_⟩
  intro s hs
  have hsub : ∀ p ∈ pySplitChar ':' s.data, '-' ∉ p :=
    fun p hp hc => hs (mem_of_mem_pySplitChar hp hc)
  unfold parse_duration
  split
  · exact le_refl 0
  · split
    · rename_i m sec hparts
      have hm := hsub m (by rw [hparts]; simp)
      have hsec := hsub sec (by rw [hparts]; simp)
      rcases ha : pyInt m with _ | a <;> rcases hb : pyInt sec with _ | b <;>
        simp only [ha, hb]
      · exact le_refl 0
      · exact le_refl 0
      · exact le_refl 0
      · have h1 := pyInt_nonneg hm ha
        have h2 := pyInt_nonneg hsec hb
        positivity
    · rename_i h m sec hparts
      have hh := hsub h (by rw [hparts]; simp)
      have hm := hsub m (by rw [hparts]; simp)
      have hsec := hsub sec (by rw [hparts]; simp)
      rcases ha : pyInt h with _ | a <;> rcases hb : pyInt m with _ | b <;>
        rcases hc : pyInt sec with _ | c <;> simp only [ha, hb, hc]
      case _ => exact le_refl 0
      case _ => exact le_refl 0
      case _ => exact le_refl 0
      case _ => exact le_refl 0
      case _ => exact le_refl 0
      case _ => exact le_refl 0
      case _ => exact le_refl 0
      case _ =>
        have h1 := pyInt_nonneg hh ha
        have h2 := pyInt_nonneg hm hb
        have h3 := pyInt_nonneg hsec hc
        positivity
    · exact le_refl 0

/-- Claim C2, witness for the amended non-negativity clause at a concrete
dash-free input. -/
theorem c2_parse_duration_amended_witness :
    ('-' ∉ "7:20".data) ∧ 0 ≤ parse_duration "7:20" :=
  ⟨by decide, c2_parse_duration_amended.2.2.2.2 "7:20" (by decide)⟩

/-- Claim C6: a candidate whose parsed duration lies outside `[30, 600]`
seconds is rejected by `is_valid_song` whatever the title, the query and the
relaxed flag. -/
theorem c6_is_valid_song_duration_gate (r : YTResult) (searchQuery : String)
    (relaxed : Bool)
    (h : parse_duration r.duration < 30 ∨ parse_duration r.duration > 600) :
    is_valid_song r searchQuery relaxed = false := by
  unfold is_valid_song
  rcases h with h | h <;> simp [h]

/-- Claim C6, witness: a ten-second clip is rejected. -/
theorem c6_is_valid_song_duration_gate_witness :
    (parse_duration "0:10" < 30 ∨ parse_duration "0:10" > 600) ∧
      is_valid_song ⟨"Nice Song", "some channel", "0:10"⟩ "nice song" false = false :=
  ⟨Or.inl (by decide),
    c6_is_valid_song_duration_gate ⟨"Nice Song", "some channel", "0:10"⟩
      "nice song" false (Or.inl (by decide))⟩

/-- Claim C10: exclusion-keyword matching is substring matching; any
candidate whose lower-cased title contains a keyword of `EXCLUSION_KEYWORDS`
as a contiguous substring is rejected by `is_valid_song` in both modes,
whatever its duration and relevance. -/
theorem c10_exclusion_keyword_substring (r : YTResult) (searchQuery : String)
    (relaxed : Bool)
    (h : ∃ kw ∈ EXCLUSION_KEYWORDS, containsSub (lowerL r.title.data) kw.data = true) :
    is_valid_song r searchQuery relaxed = false := by
  have hkw : contains_exclusion_keywords (strLower r.title) relaxed = true := by
    unfold contains_exclusion_keywords
    have hdata : (strLower r.title).data = lowerL r.title.data := rfl
    rw [hdata, lowerL_idem]
    rcases h with ⟨kw, hmem, hsub⟩
    have : EXCLUSION_KEYWORDS.any
        (fun kw => containsSub (lowerL r.title.data) kw.data) = true :=
      List.any_eq_true.2 ⟨kw, hmem, hsub⟩
    simp only [this, Bool.true_or]
  unfold is_valid_song
  by_cases hd : (parse_duration r.duration < 30 ∨ parse_duration r.duration > 600)
  · rcases hd with hd | hd <;> simp [hd]
  · push_neg at hd
    simp [hkw, not_lt.2 hd.1, not_lt.2 hd.2]

/-- Claim C10, witness: a title containing `alive` contains the keyword
`live` inside a longer word and is rejected despite a valid duration, in
relaxed mode too. -/
theorem c10_exclusion_keyword_substring_witness :
    (∃ kw ∈ EXCLUSION_KEYWORDS,
      containsSub (lowerL "Staying Alive".data) kw.data = true) ∧
      is_valid_song ⟨"Staying Alive", "some channel", "3:00"⟩ "staying alive" true
        = false :=
  ⟨⟨"live", by decide, by decide⟩,
    c10_exclusion_keyword_substring ⟨"Staying Alive", "some channel", "3:00"⟩
      "staying alive" true ⟨"live", by decide, by decide⟩⟩

/-- Claim C1: `should_include_result` implements the inclusion decision
table: with a matched track, confidence at least 80 includes with the
high-confidence reason, `[60, 80)` with the medium-confidence reason, and
below 60 the candidate is included as source-only exactly when its
YouTube-only relevance reaches 65 (else excluded as low confidence); with no
matched track, source-only inclusion happens exactly at relevance 70 (else
excluded as irrelevant). -/
theorem c1_should_include_result_decision_table :
    ∀ (r : YTResult) (searchQuery : String),
      (∀ t : SpotifyTrack,
        (80 ≤ calculate_spotify_match_confidence r t →
          should_include_result r (some t) searchQuery =
            (true, "high_confidence_spotify", calculate_spotify_match_confidence r t)) ∧
        (60 ≤ calculate_spotify_match_confidence r t ∧
            calculate_spotify_match_confidence r t < 80 →
          should_include_result r (some t) searchQuery =
            (true, "medium_confidence_spotify", calculate_spotify_match_confidence r t)) ∧
        (calculate_spotify_match_confidence r t < 60 ∧
            65 ≤ calculate_youtube_relevance r searchQuery →
          should_include_result r (some t) searchQuery =
            (true, "youtube_only", calculate_youtube_relevance r searchQuery)) ∧
        (calculate_spotify_match_confidence r t < 60 ∧
            calculate_youtube_relevance r searchQuery < 65 →
          should_include_result r (some t) searchQuery =
            (false, "low_confidence", calculate_spotify_match_confidence r t))) ∧
      (70 ≤ calculate_youtube_relevance r searchQuery →
        should_include_result r none searchQuery =
          (true, "youtube_only", calculate_youtube_relevance r searchQuery)) ∧
      (calculate_youtube_relevance r searchQuery < 70 →
        should_include_result r none searchQuery =
          (false, "irrelevant", calculate_youtube_relevance r searchQuery)) := by
  intro r searchQuery
  refine ⟨fun t => ⟨?_, ?_, ?_, ?_⟩, ?_, ?_⟩ <;> intro h <;>
    (try obtain ⟨hA, hB⟩ := h) <;>
    simp only [should_include_result, HIGH_CONFIDENCE_THRESHOLD,
      MEDIUM_CONFIDENCE_THRESHOLD, YOUTUBE_RELEVANCE_THRESHOLD,
      NON_SPOTIFY_THRESHOLD] <;>
    split_ifs <;> first | rfl | (exfalso; linarith)

/-- Claim C8: only present matched tracks can yield the high- or
medium-confidence reasons, the high tier implies confidence at least 80, the
medium tier implies confidence in `[60, 80)`, a cross-provider confidence
below 60 is never tagged with either tier, and the reported match confidence
is always clamped into `[0, 100]`. -/
theorem c8_confidence_reason_invariants :
    ∀ (r : YTResult) (spotifyTrack : Option SpotifyTrack) (searchQuery : String),
      (((should_include_result r spotifyTrack searchQuery).2.1 =
            "high_confidence_spotify" ∨
          (should_include_result r spotifyTrack searchQuery).2.1 =
            "medium_confidence_spotify") →
        spotifyTrack.isSome = true) ∧
      (∀ t, spotifyTrack = some t →
        ((should_include_result r spotifyTrack searchQuery).2.1 =
            "high_confidence_spotify" →
          80 ≤ (should_include_result r spotifyTrack searchQuery).2.2) ∧
        ((should_include_result r spotifyTrack searchQuery).2.1 =
            "medium_confidence_spotify" →
          60 ≤ (should_include_result r spotifyTrack searchQuery).2.2 ∧
            (should_include_result r spotifyTrack searchQuery).2.2 < 80) ∧
        (calculate_spotify_match_confidence r t < 60 →
          (should_include_result r spotifyTrack searchQuery).2.1 ≠
              "high_confidence_spotify" ∧
            (should_include_result r spotifyTrack searchQuery).2.1 ≠
              "medium_confidence_spotify")) ∧
      (∀ t : SpotifyTrack, 0 ≤ calculate_spotify_match_confidence r t ∧
        calculate_spotify_match_confidence r t ≤ 100) := by
  intro r spotifyTrack searchQuery
  refine ⟨?_, ?_, ?_⟩
  · intro h
    cases spotifyTrack with
    | some t => rfl
    | none =>
      exfalso
      simp only [should_include_result] at h
      rcases h with h | h <;> split_ifs at h <;> simp at h
  · intro t ht
    subst ht
    simp only [should_include_result, HIGH_CONFIDENCE_THRESHOLD,
      MEDIUM_CONFIDENCE_THRESHOLD, YOUTUBE_RELEVANCE_THRESHOLD]
    split_ifs with h1 h2 h3
    · exact ⟨fun _ => h1,
        fun hx => absurd (show ("high_confidence_spotify" : String) =
          "medium_confidence_spotify" from hx) (by decide),
        fun hc => absurd hc (by linarith)⟩
    · exact ⟨fun hx => absurd (show ("medium_confidence_spotify" : String) =
          "high_confidence_spotify" from hx) (by decide),
        fun _ => ⟨h2, by linarith⟩,
        fun hc => absurd hc (by linarith)⟩
    · exact ⟨fun hx => absurd (show ("youtube_only" : String) =
          "high_confidence_spotify" from hx) (by decide),
        fun hx => absurd (show ("youtube_only" : String) =
          "medium_confidence_spotify" from hx) (by decide),
        fun _ => ⟨show ("youtube_only" : String) ≠ "high_confidence_spotify"
          from by decide,
          show ("youtube_only" : String) ≠ "medium_confidence_spotify"
          from by decide⟩⟩
    · exact ⟨fun hx => absurd (show ("low_confidence" : String) =
          "high_confidence_spotify" from hx) (by decide),
        fun hx => absurd (show ("low_confidence" : String) =
          "medium_confidence_spotify" from hx) (by decide),
        fun _ => ⟨show ("low_confidence" : String) ≠ "high_confidence_spotify"
          from by decide,
          show ("low_confidence" : String) ≠ "medium_confidence_spotify"
          from by decide⟩⟩
  · intro t
    unfold calculate_spotify_match_confidence
    constructor
    · exact le_min (by norm_num) (le_max_left 0 _)
    · exact min_le_left 100 _

/-! ## Lemmas on the live matcher's best-tracking fold -/

/-- The tracked best score never decreases. -/
theorem bestTrackFold_snd_ge (yd : Int) :
    ∀ (l : List SpotifyTrack) (acc : Option SpotifyTrack × ℚ),
      acc.2 ≤ (bestTrackFold yd acc l).2 := by
  intro l
  induction l with
  | nil => intro acc; exact le_refl _
  | cons track rest ih =>
    intro acc
    simp only [bestTrackFold]
    split
    · exact le_trans (le_of_lt (by assumption)) (ih _)
    · exact ih _

/-- Every scanned track's score is bounded by the final best score. -/
theorem bestTrackFold_ge_mem (yd : Int) :
    ∀ (l : List SpotifyTrack) (acc : Option SpotifyTrack × ℚ) (x : SpotifyTrack),
      x ∈ l → liveMatchScore yd x ≤ (bestTrackFold yd acc l).2 := by
  intro l
  induction l with
  | nil => intro acc x hx; exact absurd hx (List.not_mem_nil x)
  | cons track rest ih =>
    intro acc x hx
    rcases List.mem_cons.1 hx with hx | hx
    · subst hx
      simp only [bestTrackFold]
      split
      · exact le_trans (le_refl _) (bestTrackFold_snd_ge yd rest _)
      · rename_i hlt
        exact le_trans (not_lt.1 hlt) (bestTrackFold_snd_ge yd rest _)
    · simp only [bestTrackFold]
      split <;> exact ih _ x hx

/-- A returned best track came from the scanned list with the final best
score, or was already in the accumulator with that score. -/
theorem bestTrackFold_some (yd : Int) :
    ∀ (l : List SpotifyTrack) (acc : Option SpotifyTrack × ℚ) (t : SpotifyTrack),
      (bestTrackFold yd acc l).1 = some t →
        (t ∈ l ∧ liveMatchScore yd t = (bestTrackFold yd acc l).2) ∨
          (acc.1 = some t ∧ acc.2 = (bestTrackFold yd acc l).2) := by
  intro l
  induction l with
  | nil => intro acc t h; exact Or.inr ⟨h, rfl⟩
  | cons track rest ih =>
    intro acc t h
    by_cases hc : liveMatchScore yd track > acc.2
    · simp only [bestTrackFold, if_pos hc] at h ⊢
      rcases ih _ t h with ⟨hmem, hsc⟩ | ⟨hacc, hsc⟩
      · exact Or.inl ⟨List.mem_cons_of_mem track hmem, hsc⟩
      · simp only [Option.some.injEq] at hacc
        subst hacc
        exact Or.inl ⟨List.mem_cons_self track rest, hsc⟩
    · simp only [bestTrackFold, if_neg hc] at h ⊢
      rcases ih _ t h with ⟨hmem, hsc⟩ | ⟨hacc, hsc⟩
      · exact Or.inl ⟨List.mem_cons_of_mem track hmem, hsc⟩
      · exact Or.inr ⟨hacc, hsc⟩

/-- When no best track is returned the accumulator held none and the score
never moved. -/
theorem bestTrackFold_none (yd : Int) :
    ∀ (l : List SpotifyTrack) (acc : Option SpotifyTrack × ℚ),
      (bestTrackFold yd acc l).1 = none →
        acc.1 = none ∧ (bestTrackFold yd acc l).2 = acc.2 := by
  intro l
  induction l with
  | nil => intro acc h; exact ⟨h, rfl⟩
  | cons track rest ih =>
    intro acc h
    by_cases hc : liveMatchScore yd track > acc.2
    · simp only [bestTrackFold, if_pos hc] at h ⊢
      rcases ih _ h with ⟨hfst, _⟩
      exact absurd hfst (by simp)
    · simp only [bestTrackFold, if_neg hc] at h ⊢
      exact ih _ h

/-- The score formula as claim C3 words it: a duration component (0.6 within
5 seconds, 0.3 within 15, 0.1 otherwise, neutral 0.3 when the track duration
is unknown), plus popularity/100 times 0.3, plus 0.1 when both the name and
the artists fields are present. -/
def c3SpecScore (yd : Int) (t : SpotifyTrack) : ℚ :=
  (if t.duration_ms.fdiv 1000 > 0 then
    (if (t.duration_ms.fdiv 1000 - yd).natAbs ≤ 5 then 0.6
     else if (t.duration_ms.fdiv 1000 - yd).natAbs ≤ 15 then 0.3
     else 0.1)
   else 0.3) +
  (t.popularity : ℚ) / 100 * 0.3 +
  (if t.name ≠ "" ∧ t.artists ≠ [] then 0.1 else 0)

/-- The claim-worded score coincides with the loop body's score. -/
theorem c3SpecScore_eq_liveMatchScore (yd : Int) (t : SpotifyTrack) :
    c3SpecScore yd t = liveMatchScore yd t := by
  unfold c3SpecScore liveMatchScore
  have hne : (t.name ≠ "" ∧ t.artists ≠ []) ↔
      (t.name ≠ "" && !t.artists.isEmpty) = true := by
    simp [List.isEmpty_iff]
  by_cases h : t.name ≠ "" ∧ t.artists ≠ []
  · rw [if_pos h, if_pos (hne.1 h)]
  · rw [if_neg h, if_neg (fun hb => h (hne.2 hb))]

/-- Claim C3: `find_best_spotify_match` scores each track by the duration /
popularity / completeness formula and returns the highest-scoring track
exactly when its score exceeds 0.4 (in particular no match for the empty
list, and never a track that is not maximal). -/
theorem c3_find_best_spotify_match_spec :
    ∀ (tracks : List SpotifyTrack) (r : YTResult),
      (find_best_spotify_match [] r = none) ∧
      (find_best_spotify_match tracks r = none ↔
        ∀ t ∈ tracks,
          c3SpecScore (parse_duration_to_seconds r.duration) t ≤ 0.4) ∧
      (∀ t, find_best_spotify_match tracks r = some t →
        t ∈ tracks ∧
          0.4 < c3SpecScore (parse_duration_to_seconds r.duration) t ∧
          ∀ u ∈ tracks,
            c3SpecScore (parse_duration_to_seconds r.duration) u ≤
              c3SpecScore (parse_duration_to_seconds r.duration) t) := by
  intro tracks r
  set yd := parse_duration_to_seconds r.duration with hyd
  refine ⟨rfl, ?_, ?_⟩
  · cases tracks with
    | nil => simp [find_best_spotify_match]
    | cons track rest =>
      simp only [find_best_spotify_match, List.isEmpty_cons, if_neg Bool.false_ne_true]
      constructor
      · intro h t ht
        rw [c3SpecScore_eq_liveMatchScore]
        by_cases hb : (bestTrackFold yd (none, 0) (track :: rest)).2 > 0.4
        · rw [if_pos hb] at h
          rcases bestTrackFold_none yd (track :: rest) (none, 0) h with ⟨_, hz⟩
          rw [hz] at hb
          norm_num at hb
        · rw [not_lt] at hb
          exact le_trans (bestTrackFold_ge_mem yd (track :: rest) (none, 0) t ht) hb
      · intro hall
        by_cases hb : (bestTrackFold yd (none, 0) (track :: rest)).2 > 0.4
        · exfalso
          rcases hfst : (bestTrackFold yd (none, 0) (track :: rest)).1 with _ | t
          · rcases bestTrackFold_none yd (track :: rest) (none, 0) hfst with ⟨_, hz⟩
            rw [hz] at hb
            norm_num at hb
          · rcases bestTrackFold_some yd (track :: rest) (none, 0) t hfst with
              ⟨hmem, hsc⟩ | ⟨habs, _⟩
            · have := hall t hmem
              rw [c3SpecScore_eq_liveMatchScore, hsc] at this
              exact absurd hb (not_lt.2 this)
            · exact Option.noConfusion habs
        · rw [if_neg hb]
  · intro t ht
    cases tracks with
    | nil => exact Option.noConfusion ht
    | cons track rest =>
      simp only [find_best_spotify_match, List.isEmpty_cons,
        if_neg Bool.false_ne_true] at ht
      by_cases hb : (bestTrackFold yd (none, 0) (track :: rest)).2 > 0.4
      · rw [if_pos hb] at ht
        rcases bestTrackFold_some yd (track :: rest) (none, 0) t ht with
          ⟨hmem, hsc⟩ | ⟨habs, _⟩
        · refine ⟨hmem, ?_, ?_⟩
          · rw [c3SpecScore_eq_liveMatchScore, hsc]
            exact hb
          · intro u hu
            rw [c3SpecScore_eq_liveMatchScore, c3SpecScore_eq_liveMatchScore, hsc]
            exact bestTrackFold_ge_mem yd (track :: rest) (none, 0) u hu
        · exact Option.noConfusion habs
      · rw [if_neg hb] at ht
        exact Option.noConfusion ht

/-! ## Lemmas on deduplication -/

/-- An element of a `dedupInsert` came from the newcomer or the kept list. -/
theorem mem_dedupInsert {x r : YTResult} :
    ∀ {acc : List YTResult}, x ∈ dedupInsert r acc → x = r ∨ x ∈ acc := by
  intro acc
  induction acc with
  | nil =>
    intro h
    simp only [dedupInsert, List.mem_singleton] at h
    exact Or.inl h
  | cons ex rest ih =>
    intro h
    simp only [dedupInsert] at h
    split at h
    · split at h
      · rcases List.mem_cons.1 h with h | h
        · exact Or.inl h
        · exact Or.inr (List.mem_cons_of_mem ex h)
      · exact Or.inr h
    · rcases List.mem_cons.1 h with h | h
      · exact Or.inr (h ▸ List.mem_cons_self ex rest)
      · rcases ih h with h | h
        · exact Or.inl h
        · exact Or.inr (List.mem_cons_of_mem ex h)

/-- A `dedupInsert` grows the kept list by at most one. -/
theorem length_dedupInsert (r : YTResult) :
    ∀ (acc : List YTResult), (dedupInsert r acc).length ≤ acc.length + 1 := by
  intro acc
  induction acc with
  | nil => simp [dedupInsert]
  | cons ex rest ih =>
    simp only [dedupInsert]
    split
    · split <;> simp
    · simpa [Nat.succ_le_succ_iff] using ih

/-- Elements of the deduplication fold came from the accumulator or the
scanned list. -/
theorem mem_dedup_foldl :
    ∀ (l : List YTResult) (acc : List YTResult) (x : YTResult),
      x ∈ l.foldl (fun a r => dedupInsert r a) acc → x ∈ acc ∨ x ∈ l := by
  intro l
  induction l with
  | nil => intro acc x h; exact Or.inl h
  | cons r rest ih =>
    intro acc x h
    rcases ih (dedupInsert r acc) x h with h | h
    · rcases mem_dedupInsert h with h | h
      · exact Or.inr (h ▸ List.mem_cons_self r rest)
      · exact Or.inl h
    · exact Or.inr (List.mem_cons_of_mem r h)

/-- The deduplication fold never lengthens beyond accumulator plus input. -/
theorem length_dedup_foldl :
    ∀ (l : List YTResult) (acc : List YTResult),
      (l.foldl (fun a r => dedupInsert r a) acc).length ≤ acc.length + l.length := by
  intro l
  induction l with
  | nil => intro acc; simp
  | cons r rest ih =>
    intro acc
    calc (List.foldl (fun a r => dedupInsert r a) (dedupInsert r acc) rest).length
        ≤ (dedupInsert r acc).length + rest.length := ih _
      _ ≤ acc.length + 1 + rest.length :=
          Nat.add_le_add_right (length_dedupInsert r acc) _
      _ = acc.length + (r :: rest).length := by simp [List.length_cons]; omega

/-- Claim C4, counterexample to idempotence: with three candidates whose core
titles are `qab`, `abz`, `qabz` (ratios 86, 67, 86 around the threshold 80)
and equal durations, the official-channel newcomer replaces the first
representative without being compared to the second, so a second pass merges
what the first pass kept apart. -/
theorem c4_remove_duplicates_not_idempotent_counterexample :
    remove_duplicates
        (remove_duplicates
          [⟨"qab", "someguy", "3:00"⟩, ⟨"abz", "otherguy", "3:00"⟩,
            ⟨"qabz", "vevo", "3:00"⟩] "q") "q" ≠
      remove_duplicates
        [⟨"qab", "someguy", "3:00"⟩, ⟨"abz", "otherguy", "3:00"⟩,
          ⟨"qabz", "vevo", "3:00"⟩] "q" := by
  decide

/-- Claim C4, amended: `remove_duplicates` applied to its own output yields
a list at most as long whose every element already occurs in that output
(full idempotence fails: replacing an already-kept representative skips the
comparisons against it, see the counterexample). -/
theorem c4_remove_duplicates_amended :
    ∀ (l : List YTResult) (q1 q2 : String),
      (∀ x ∈ remove_duplicates (remove_duplicates l q1) q2,
        x ∈ remove_duplicates l q1) ∧
      (remove_duplicates (remove_duplicates l q1) q2).length ≤
        (remove_duplicates l q1).length := by
  intro l q1 q2
  constructor
  · intro x hx
    rcases mem_dedup_foldl (remove_duplicates l q1) [] x hx with h | h
    · exact absurd h (List.not_mem_nil x)
    · exact h
  · simpa using length_dedup_foldl (remove_duplicates l q1) []

set_option maxHeartbeats 1000000 in
/-- Claim C5: on a two-candidate list whose core-title fuzzy similarity is 95
and whose parsed durations differ by 2 seconds, `remove_duplicates` keeps
exactly one representative; when exactly one candidate's channel carries an
official indicator that candidate is kept, and with both or neither official
the strictly shorter title is kept (first candidate on a length tie). -/
theorem c5_remove_duplicates_two_candidates
    (c1 c2 : YTResult) (q : String)
    (hsim : fuzz_ratio (lowerL (extract_core_title c2.title).data)
      (lowerL (extract_core_title c1.title).data) = 95)
    (hdur : (parse_duration c2.duration - parse_duration c1.duration).natAbs = 2) :
    (remove_duplicates [c1, c2] q).length = 1 ∧
    (officialChannel c1 = true → officialChannel c2 = false →
      remove_duplicates [c1, c2] q = [c1]) ∧
    (officialChannel c2 = true → officialChannel c1 = false →
      remove_duplicates [c1, c2] q = [c2]) ∧
    (officialChannel c1 = officialChannel c2 →
      (c2.title.length < c1.title.length → remove_duplicates [c1, c2] q = [c2]) ∧
      (c1.title.length ≤ c2.title.length → remove_duplicates [c1, c2] q = [c1])) := by
  have hsimilar : dupSimilar c2 c1 = true := by
    unfold dupSimilar are_durations_similar
    rw [hsim, hdur]
    decide
  have hred : remove_duplicates [c1, c2] q = dedupInsert c2 [c1] := by
    show List.foldl (fun acc r => dedupInsert r acc) [] [c1, c2] = _
    rw [List.foldl_cons, List.foldl_cons, List.foldl_nil]
    simp only [dedupInsert]
  have hstep : dedupInsert c2 [c1] =
      if is_better_source c2 c1 then [c2] else [c1] := by
    simp only [dedupInsert, hsimilar, if_true]
  refine ⟨?_, ?_, ?_, ?_⟩
  · rw [hred, hstep]
    split <;> rfl
  · intro h1 h2
    rw [hred, hstep]
    unfold is_better_source
    rw [h1, h2]
    simp
  · intro h2 h1
    rw [hred, hstep]
    unfold is_better_source
    rw [h1, h2]
    simp
  · intro heq
    constructor
    · intro hlen
      rw [hred, hstep]
      unfold is_better_source
      rw [← heq]
      rcases hb : officialChannel c1 with _ | _ <;>
        simp [hb, hlen]
    · intro hlen
      rw [hred, hstep]
      unfold is_better_source
      rw [← heq]
      rcases hb : officialChannel c1 with _ | _ <;>
        simp [hb, not_lt.2 hlen]

/-- Claim C5, witness: two 20-character titles differing in one character
(ratio 95), durations 3:00 and 3:02, the second channel official; the second
candidate is kept. -/
theorem c5_remove_duplicates_two_candidates_witness :
    (fuzz_ratio
        (lowerL (extract_core_title "abcdefghij klmnopqrt").data)
        (lowerL (extract_core_title "abcdefghij klmnopqrs").data) = 95) ∧
    ((parse_duration "3:02" - parse_duration "3:00").natAbs = 2) ∧
    remove_duplicates
        [⟨"abcdefghij klmnopqrs", "plainchannel", "3:00"⟩,
          ⟨"abcdefghij klmnopqrt", "xyz records", "3:02"⟩] "some query" =
      [⟨"abcdefghij klmnopqrt", "xyz records", "3:02"⟩] :=
  ⟨by decide, by decide,
    (c5_remove_duplicates_two_candidates
        ⟨"abcdefghij klmnopqrs", "plainchannel", "3:00"⟩
        ⟨"abcdefghij klmnopqrt", "xyz records", "3:02"⟩ "some query"
        (by decide) (by decide)).2.2.1 (by decide) (by decide)⟩

/-- Claim C7: `extract_song_info` tries its separator patterns in order and
returns the first match as `(artist, song) = (group1, group2)` stripped,
except the `Song by Artist` pattern whose groups are swapped; when no pattern
matches it returns the empty artist with the whole stripped title. -/
theorem c7_extract_song_info_pattern_order :
    ∀ title : String,
      (∀ g1 g2, sepSplit ['-'] title.data = some (g1, g2) →
        extract_song_info title = (⟨pyStripL g1⟩, ⟨pyStripL g2⟩)) ∧
      (∀ g1 g2, sepSplit ['-'] title.data = none →
        quoteSplit '"' title.data = some (g1, g2) →
        extract_song_info title = (⟨pyStripL g1⟩, ⟨pyStripL g2⟩)) ∧
      (∀ g1 g2, sepSplit ['-'] title.data = none →
        quoteSplit '"' title.data = none →
        quoteSplit (Char.ofNat 39) title.data = some (g1, g2) →
        extract_song_info title = (⟨pyStripL g1⟩, ⟨pyStripL g2⟩)) ∧
      (∀ g1 g2, sepSplit ['-'] title.data = none →
        quoteSplit '"' title.data = none →
        quoteSplit (Char.ofNat 39) title.data = none →
        sepSplit [':'] title.data = some (g1, g2) →
        extract_song_info title = (⟨pyStripL g1⟩, ⟨pyStripL g2⟩)) ∧
      (∀ g1 g2, sepSplit ['-'] title.data = none →
        quoteSplit '"' title.data = none →
        quoteSplit (Char.ofNat 39) title.data = none →
        sepSplit [':'] title.data = none →
        sepSplit ['|'] title.data = some (g1, g2) →
        extract_song_info title = (⟨pyStripL g1⟩, ⟨pyStripL g2⟩)) ∧
      (∀ g1 g2, sepSplit ['-'] title.data = none →
        quoteSplit '"' title.data = none →
        quoteSplit (Char.ofNat 39) title.data = none →
        sepSplit [':'] title.data = none →
        sepSplit ['|'] title.data = none →
        sepSplit ['b', 'y'] title.data = some (g1, g2) →
        extract_song_info title = (⟨pyStripL g2⟩, ⟨pyStripL g1⟩)) ∧
      (sepSplit ['-'] title.data = none →
        quoteSplit '"' title.data = none →
        quoteSplit (Char.ofNat 39) title.data = none →
        sepSplit [':'] title.data = none →
        sepSplit ['|'] title.data = none →
        sepSplit ['b', 'y'] title.data = none →
        extract_song_info title = ("", ⟨pyStripL title.data⟩)) := by
  intro title
  refine ⟨?_, ?_, ?_, ?_, ?_, ?_, ?_⟩
  · intro g1 g2 h1
    simp [extract_song_info, songInfoPatterns, songInfoGo, h1]
  · intro g1 g2 h1 h2
    simp [extract_song_info, songInfoPatterns, songInfoGo, h1, h2]
  · intro g1 g2 h1 h2 h3
    simp [extract_song_info, songInfoPatterns, songInfoGo, h1, h2, h3]
  · intro g1 g2 h1 h2 h3 h4
    simp [extract_song_info, songInfoPatterns, songInfoGo, h1, h2, h3, h4]
  · intro g1 g2 h1 h2 h3 h4 h5
    simp [extract_song_info, songInfoPatterns, songInfoGo, h1, h2, h3, h4, h5]
  · intro g1 g2 h1 h2 h3 h4 h5 h6
    simp [extract_song_info, songInfoPatterns, songInfoGo, h1, h2, h3, h4, h5, h6]
  · intro h1 h2 h3 h4 h5 h6
    simp [extract_song_info, songInfoPatterns, songInfoGo, h1, h2, h3, h4, h5, h6]

/-! ## Lemmas on the diversifier and the pipeline -/

/-- Membership in some group of a grouping list. -/
def inGroups (x : YTResult) (gs : List (List Char × List YTResult)) : Prop :=
  ∃ g ∈ gs, x ∈ g.2

/-- Adding to a group adds only the newcomer. -/
theorem inGroups_addToGroup {x r : YTResult} :
    ∀ {gs : List (List Char × List YTResult)} {i : Nat},
      inGroups x (addToGroup gs i r) → inGroups x gs ∨ x = r := by
  intro gs
  induction gs with
  | nil =>
    intro i h
    rcases h with ⟨p, hp, _⟩
    cases i <;> exact absurd hp (List.not_mem_nil p)
  | cons g rest ih =>
    intro i h
    cases i with
    | zero =>
      rcases h with ⟨p, hp, hx⟩
      rcases List.mem_cons.1 hp with hp | hp
      · subst hp
        rcases List.mem_append.1 hx with hx | hx
        · exact Or.inl ⟨g, List.mem_cons_self g rest, hx⟩
        · exact Or.inr (List.mem_singleton.1 hx)
      · exact Or.inl ⟨p, List.mem_cons_of_mem g hp, hx⟩
    | succ i =>
      rcases h with ⟨p, hp, hx⟩
      rcases List.mem_cons.1 hp with hp | hp
      · subst hp
        exact Or.inl ⟨p, List.mem_cons_self p rest, hx⟩
      · rcases ih ⟨p, hp, hx⟩ with h | h
        · rcases h with ⟨p2, hp2, hx2⟩
          exact Or.inl ⟨p2, List.mem_cons_of_mem g hp2, hx2⟩
        · exact Or.inr h

/-- One grouping step adds only the scanned result. -/
theorem inGroups_varietyGroupStep {x r : YTResult} {q : String}
    {gs : List (List Char × List YTResult)}
    (h : inGroups x (varietyGroupStep q gs r)) : inGroups x gs ∨ x = r := by
  simp only [varietyGroupStep] at h
  split at h
  · exact inGroups_addToGroup h
  · rcases h with ⟨p, hp, hx⟩
    rcases List.mem_append.1 hp with hp | hp
    · exact Or.inl ⟨p, hp, hx⟩
    · rw [List.mem_singleton.1 hp] at hx
      exact Or.inr (List.mem_singleton.1 hx)

/-- The grouping fold only ever holds accumulator members and scanned
results. -/
theorem inGroups_varietyFold {x : YTResult} {q : String} :
    ∀ (l : List YTResult) (gs : List (List Char × List YTResult)),
      inGroups x (l.foldl (varietyGroupStep q) gs) → inGroups x gs ∨ x ∈ l := by
  intro l
  induction l with
  | nil => intro gs h; exact Or.inl h
  | cons r rest ih =>
    intro gs h
    rcases ih (varietyGroupStep q gs r) h with h | h
    · rcases inGroups_varietyGroupStep h with h | h
      · exact Or.inl h
      · exact Or.inr (h ▸ List.mem_cons_self r rest)
    · exact Or.inr (List.mem_cons_of_mem r h)

/-- Python `max` returns an element of its list. -/
theorem pyMaxBy_mem_aux (f : YTResult → ℚ) :
    ∀ (l : List YTResult) (acc : Option YTResult) (x : YTResult),
      l.foldl
          (fun acc x =>
            match acc with
            | none => some x
            | some b => if f x > f b then some x else acc)
          acc = some x →
        acc = some x ∨ x ∈ l := by
  intro l
  induction l with
  | nil => intro acc x h; exact Or.inl h
  | cons r rest ih =>
    intro acc x h
    cases acc with
    | none =>
      simp only [List.foldl_cons] at h
      rcases ih _ x h with h2 | h2
      · simp only [Option.some.injEq] at h2
        exact Or.inr (h2 ▸ List.mem_cons_self r rest)
      · exact Or.inr (List.mem_cons_of_mem r h2)
    | some b =>
      by_cases hb : f r > f b
      · simp only [List.foldl_cons] at h
        rw [if_pos hb] at h
        rcases ih _ x h with h2 | h2
        · simp only [Option.some.injEq] at h2
          exact Or.inr (h2 ▸ List.mem_cons_self r rest)
        · exact Or.inr (List.mem_cons_of_mem r h2)
      · simp only [List.foldl_cons] at h
        rw [if_neg hb] at h
        rcases ih _ x h with h2 | h2
        · exact Or.inl h2
        · exact Or.inr (List.mem_cons_of_mem r h2)

/-- `pyMaxBy` returns an element of its list. -/
theorem pyMaxBy_mem {f : YTResult → ℚ} {l : List YTResult} {x : YTResult}
    (h : pyMaxBy f l = some x) : x ∈ l := by
  rcases pyMaxBy_mem_aux f l none x h with h | h
  · exact Option.noConfusion h
  · exact h

/-- Insertion adds only the inserted element. -/
theorem mem_insertDescBy {f : YTResult → ℚ} {a x : YTResult} :
    ∀ {l : List YTResult}, x ∈ insertDescBy f a l → x = a ∨ x ∈ l := by
  intro l
  induction l with
  | nil =>
    intro h
    exact Or.inl (List.mem_singleton.1 h)
  | cons y rest ih =>
    intro h
    simp only [insertDescBy] at h
    split at h
    · rcases List.mem_cons.1 h with h | h
      · exact Or.inl h
      · exact Or.inr h
    · rcases List.mem_cons.1 h with h | h
      · exact Or.inr (h ▸ List.mem_cons_self y rest)
      · rcases ih h with h | h
        · exact Or.inl h
        · exact Or.inr (List.mem_cons_of_mem y h)

/-- Sorting preserves membership (one direction suffices here). -/
theorem mem_sortDescBy {f : YTResult → ℚ} {x : YTResult} :
    ∀ {l : List YTResult}, x ∈ sortDescBy f l → x ∈ l := by
  intro l
  induction l with
  | nil => intro h; exact absurd h (List.not_mem_nil x)
  | cons y rest ih =>
    intro h
    simp only [sortDescBy] at h
    rcases mem_insertDescBy h with h | h
    · exact h ▸ List.mem_cons_self y rest
    · exact List.mem_cons_of_mem y (ih h)

/-- The diversifier only returns input candidates. -/
theorem mem_ensure_artist_variety {l : List YTResult} {q : String} {x : YTResult}
    (h : x ∈ ensure_artist_variety l q) : x ∈ l := by
  unfold ensure_artist_variety at h
  split at h
  · exact h
  · have h1 := List.mem_of_mem_take h
    have h2 := mem_sortDescBy h1
    rcases List.mem_filterMap.1 h2 with ⟨g, hg, hmax⟩
    have h3 : inGroups x (l.foldl (varietyGroupStep q) []) :=
      ⟨g, hg, pyMaxBy_mem hmax⟩
    rcases inGroups_varietyFold l [] h3 with h4 | h4
    · rcases h4 with ⟨p, hp, _⟩
      exact absurd hp (List.not_mem_nil p)
    · exact h4

/-- The diversifier returns at most 10 candidates. -/
theorem length_ensure_artist_variety (l : List YTResult) (q : String) :
    (ensure_artist_variety l q).length ≤ 10 := by
  unfold ensure_artist_variety
  split
  · omega
  · rw [List.length_take]
    exact min_le_left 10 _

/-- Claim C9: the full pipeline returns at most 5 candidates (a final
truncation applied after validation, deduplication and diversification),
every returned candidate is an element of the input list, and the diversifier
alone may keep up to 10 (never more). -/
theorem c9_filter_youtube_results_cap_and_membership :
    ∀ (l : List YTResult) (q : String),
      (filter_youtube_results l q).length ≤ 5 ∧
      (∀ x ∈ filter_youtube_results l q, x ∈ l) ∧
      (∀ m : List YTResult, (ensure_artist_variety m q).length ≤ 10) := by
  intro l q
  refine ⟨?_, ?_, fun m => length_ensure_artist_variety m q⟩
  · simp only [filter_youtube_results]
    split <;> split <;>
      first
        | (rw [List.length_take]; exact min_le_left 5 _)
        | omega
  · intro x hx
    simp only [filter_youtube_results] at hx
    split at hx
    · have hx3 : x ∈ remove_duplicates
          (l.filter (fun r => is_valid_song r q (is_artist_search q))) q := by
        split at hx
        · exact mem_ensure_artist_variety (List.mem_of_mem_take hx)
        · exact mem_ensure_artist_variety hx
      rcases mem_dedup_foldl _ [] x hx3 with h | h
      · exact absurd h (List.not_mem_nil x)
      · exact List.mem_of_mem_filter h
    · have hx3 : x ∈ remove_duplicates
          (l.filter (fun r => is_valid_song r q (is_artist_search q))) q := by
        split at hx
        · exact List.mem_of_mem_take hx
        · exact hx
      rcases mem_dedup_foldl _ [] x hx3 with h | h
      · exact absurd h (List.not_mem_nil x)
      · exact List.mem_of_mem_filter h

/-! ## Concrete end-to-end evaluations

Ground instances showing the main branches of the pipeline are reachable:
the high-confidence tier on the spec's scenario-A shaped input, the
source-only tier on an unmatched relevant candidate, and a live-matcher hit.
These use only the definitions above. -/

/-- Title similarity of the scenario-A candidate against its track: the
cleaned track name is a substring (boost to 85) and the lead artist appears
in the title (+15, capped), giving 100. -/
theorem sanity_title_similarity_eval :
    calculate_title_similarity "Artist - Song Name (Official Audio)" "Song Name"
      ["Artist"] = 100 := by
  simp only [calculate_title_similarity]
  norm_cast

/-- Duration similarity of 3:45 against 225000 ms is the full 100. -/
theorem sanity_duration_similarity_eval :
    calculate_duration_similarity (parse_duration "3:45")
      ((225000 : Int).fdiv 1000) = 100 := by
  decide

/-- Artist similarity: the cleaned artist is a substring of the cleaned
title, giving 90. -/
theorem sanity_artist_similarity_eval :
    calculate_artist_similarity "Artist - Song Name (Official Audio)" ["Artist"]
      = 90 := by
  simp only [calculate_artist_similarity]
  norm_cast

/-- Scenario-A confidence: `100*0.4 + 100*0.35 + 90*0.25 = 97.5`. -/
theorem sanity_confidence_eval :
    calculate_spotify_match_confidence
      ⟨"Artist - Song Name (Official Audio)", "Artist Official", "3:45"⟩
      ⟨"Song Name", ["Artist"], 225000, 80⟩ = 97.5 := by
  simp only [calculate_spotify_match_confidence]
  rw [sanity_title_similarity_eval, sanity_duration_similarity_eval,
    sanity_artist_similarity_eval]
  norm_num [min_def, max_def]

/-- The scenario-A candidate is included with the high-confidence reason. -/
theorem sanity_should_include_high_confidence_eval :
    should_include_result
        ⟨"Artist - Song Name (Official Audio)", "Artist Official", "3:45"⟩
        (some ⟨"Song Name", ["Artist"], 225000, 80⟩) "artist song name" =
      (true, "high_confidence_spotify", 97.5) := by
  simp only [should_include_result]
  rw [sanity_confidence_eval]
  norm_num [HIGH_CONFIDENCE_THRESHOLD]

/-- YouTube-only relevance of a well-formed unmatched candidate:
`94*0.5 + 100*0.3 + 75*0.2 = 92`. -/
theorem sanity_relevance_eval :
    calculate_youtube_relevance ⟨"Artist - Song Name", "chan", "3:30"⟩
      "artist song name" = 92 := by
  simp only [calculate_youtube_relevance]
  rw [show fuzz_ratio (lowerL (clean_search_query "artist song name").data)
      (lowerL (clean_search_query "Artist - Song Name").data) = 94 from by decide]
  rw [show ((pySplitWs (lowerL (clean_search_query "artist song name").data)).filter
      (fun w => (pySplitWs
        (lowerL (clean_search_query "Artist - Song Name").data)).contains w)).length
      = 3 from by decide]
  rw [show (pySplitWs (lowerL (clean_search_query "artist song name").data)).length
      = 3 from by decide]
  rw [show check_song_patterns "Artist - Song Name" = 75 from by decide]
  norm_num [min_def, max_def]

/-- With no matched track and relevance 92 at the threshold 70, the
candidate is included as source-only. -/
theorem sanity_should_include_source_only_eval :
    should_include_result ⟨"Artist - Song Name", "chan", "3:30"⟩ none
      "artist song name" = (true, "youtube_only", 92) := by
  simp only [should_include_result]
  rw [sanity_relevance_eval]
  norm_num [NON_SPOTIFY_THRESHOLD]

/-- Live-matcher score of an exact-duration, popularity-80, complete track:
`0.6 + 0.24 + 0.1 = 0.94`. -/
theorem sanity_live_score_eval :
    liveMatchScore (parse_duration_to_seconds "3:45")
      ⟨"Song Name", ["Artist"], 225000, 80⟩ = 0.94 := by
  simp only [liveMatchScore]
  rw [show ((225000 : Int).fdiv 1000) = 225 from by decide,
    show parse_duration_to_seconds "3:45" = 225 from by decide]
  norm_num
  rw [if_neg (show ¬("Song Name" : String) = "" from by decide)]
  norm_num

/-- The live matcher returns that track (score 0.94 above 0.4). -/
theorem sanity_find_best_match_eval :
    find_best_spotify_match [⟨"Song Name", ["Artist"], 225000, 80⟩]
      ⟨"Artist - Song Name (Official Audio)", "Artist Official", "3:45"⟩ =
      some ⟨"Song Name", ["Artist"], 225000, 80⟩ := by
  simp only [find_best_spotify_match, bestTrackFold]
  rw [sanity_live_score_eval]
  norm_num
